import Mathlib

/-!
Verification development for the RPL control-plane sources of this
repository: src/rpl/rpl-icmp6.c (ICMPv6 I/O for RPL control messages,
including the MRHOF objective function embedded at the top of that file)
and src/rpl/rpl-of0.c (objective function zero).

Modelling conventions.
Buffers are lists of naturals; each entry stands for one octet of the
ICMPv6 payload, so entries are below 256 in every intended state.  A read
past the end of the known payload returns 0, standing for the scratch
bytes of the shared packet buffer.  Machine integers are naturals with
explicit truncation (mod 65536 for uint16 stores, mod 256 for uint8
stores) at the points where the C code narrows a wider value.  C bit
operations on disjoint fields are written with arithmetic (shift = mul or
div by a power of two, or of disjoint ranges = addition), which agrees
with the source for the field widths recorded in the data model (3-bit
MOP, 3-bit preference, 2-bit aggregation, 4-bit precedence).  Signed int
arithmetic, where the C promotes uint16 operands to int, is modelled with
Int.  Pointer identity of pool objects (parents, DAGs) is modelled with
an id field; two objects are the same pointer iff the records are equal.
-/

/-- Reads one octet of a payload buffer; out-of-range reads return the
zero scratch byte. -/
def byteAt (buf : List Nat) (i : Nat) : Nat :=
  buf.getD i 0

/-- Reads n consecutive octets starting at pos (a memcpy out of the
payload buffer). -/
def readBytes (buf : List Nat) (pos : Nat) : Nat → List Nat
  | 0 => []
  | n + 1 => byteAt buf pos :: readBytes buf (pos + 1) n

/-- Model of get16 from rpl-icmp6.c: big-endian 16-bit read, high octet
shifted left by eight then or-ed with the low octet. -/
def get16 (buf : List Nat) (pos : Nat) : Nat :=
  byteAt buf pos * 256 + byteAt buf (pos + 1)

/-- Model of get32 from rpl-icmp6.c: big-endian 32-bit read. -/
def get32 (buf : List Nat) (pos : Nat) : Nat :=
  byteAt buf pos * 16777216 + byteAt buf (pos + 1) * 65536 +
    byteAt buf (pos + 2) * 256 + byteAt buf (pos + 3)

/-- Model of set16 from rpl-icmp6.c: the two octets value >> 8 and
value and 0xff, for a uint16 value. -/
def set16 (v : Nat) : List Nat := [v / 256, v % 256]

/-- Model of set32 from rpl-icmp6.c: the four big-endian octets of a
uint32 value. -/
def set32 (v : Nat) : List Nat :=
  [v / 16777216, v / 65536 % 256, v / 256 % 256, v % 256]

/-- INFINITE_RANK, the 16-bit maximum rank. -/
def INFINITE_RANK : Nat := 65535

/-- Modelled from the spec: the fixed-point ETX divisor (the
RPL_DAG_MC_ETX_DIVISOR and LINK_STATS_ETX_DIVISOR configuration
constants live in headers outside src/; section 8 of the spec fixes
ETX_DIVISOR = 128). -/
def ETX_DIVISOR : Nat := 128

/-- MAX_LINK_METRIC from the MRHOF section of rpl-icmp6.c. -/
def MAX_LINK_METRIC : Nat := 10

/-- MAX_PATH_COST from the MRHOF section of rpl-icmp6.c. -/
def MAX_PATH_COST : Nat := 100

/-- PARENT_SWITCH_THRESHOLD_DIV from the MRHOF section of rpl-icmp6.c. -/
def PARENT_SWITCH_THRESHOLD_DIV : Nat := 2

/-- DAG_RANK from rpl.h (used by both files): the integral rank, the
fixed-point rank divided by the instance minimum hop rank increase. -/
def DAG_RANK (fixpt_rank min_hoprankinc : Nat) : Nat :=
  fixpt_rank / min_hoprankinc

/-- A parent record; id models the pool slot so that record equality is
pointer equality, rank and link_metric are the uint16 fields, addr is
the global address known for the parent (none when
rpl_get_parent_ipaddr returns NULL), flags carries the parent flag
bits. -/
structure Parent where
  id : Nat
  rank : Nat
  link_metric : Nat
  addr : Option (List Nat)
  flags : Nat
deriving DecidableEq, Repr

/-- A DAG record for the best_dag comparisons; id models the pool slot. -/
structure DagR where
  id : Nat
  grounded : Bool
  preference : Nat
  rank : Nat
deriving DecidableEq, Repr

namespace mrhof

/-- Path metric of MRHOF (calculate_path_metric in rpl-icmp6.c) in the
default RPL_DAG_MC_NONE configuration: for a null parent the constant
ceiling, otherwise rank plus link metric truncated to the uint16 return
type. -/
def calculate_path_metric (p : Option Parent) : Nat :=
  match p with
  | none => MAX_PATH_COST * ETX_DIVISOR
  | some q => (q.rank + q.link_metric) % 65536

/-- The MRHOF best_dag of rpl-icmp6.c: grounded wins, then higher
preference, then d1 iff its rank is strictly smaller. -/
def best_dag (d1 d2 : DagR) : DagR :=
  if d1.grounded ≠ d2.grounded then (if d1.grounded then d1 else d2)
  else if d1.preference ≠ d2.preference then
    (if d1.preference > d2.preference then d1 else d2)
  else if d1.rank < d2.rank then d1 else d2

/-- The MRHOF best_parent of rpl-icmp6.c.  The pref argument stands for
p1->dag->preferred_parent.  The comparisons p1_metric < p2_metric +
min_diff and p1_metric > p2_metric - min_diff are int comparisons after
integer promotion of the uint16 path metrics, hence the Int casts. -/
def best_parent (pref : Option Parent) (p1 p2 : Parent) : Option Parent :=
  let min_diff := ETX_DIVISOR / PARENT_SWITCH_THRESHOLD_DIV
  let m1 := calculate_path_metric (some p1)
  let m2 := calculate_path_metric (some p2)
  if (pref = some p1 ∨ pref = some p2) ∧
     ((m1 : Int) < (m2 : Int) + (min_diff : Int) ∧
      (m1 : Int) > (m2 : Int) - (min_diff : Int)) then
    pref
  else some (if m1 < m2 then p1 else p2)

end mrhof

namespace of0

/-- RANK_STRETCH from rpl-of0.c. -/
def RANK_STRETCH : Nat := 0

/-- RANK_FACTOR from rpl-of0.c. -/
def RANK_FACTOR : Nat := 1

/-- MIN_STEP_OF_RANK from rpl-of0.c. -/
def MIN_STEP_OF_RANK : Nat := 1

/-- MAX_STEP_OF_RANK from rpl-of0.c. -/
def MAX_STEP_OF_RANK : Nat := 9

/-- The parent_link_metric of rpl-of0.c: the ETX of the link-stats entry
for the parent, or 0xffff when there is no entry.  The stats argument is
the ETX published by the external link-stats module. -/
def parent_link_metric (stats : Option Nat) : Nat :=
  stats.getD 65535

/-- STEP_OF_RANK of rpl-of0.c in the default ETX-based configuration:
three times the link metric over the ETX divisor, minus two, in int
arithmetic (the subtraction can go negative). -/
def STEP_OF_RANK (lm : Nat) : Int :=
  ((3 * lm / ETX_DIVISOR : Nat) : Int) - 2

/-- The parent_rank_increase of rpl-of0.c: infinite for a null parent,
otherwise (RANK_FACTOR * STEP_OF_RANK + RANK_STRETCH) * min_hoprankinc
computed in int and truncated by the uint16 return type. -/
def parent_rank_increase (p : Option Parent) (min_hoprankinc : Nat)
    (stats : Option Nat) : Nat :=
  match p with
  | none => INFINITE_RANK
  | some _ =>
    ((((RANK_FACTOR : Int) * STEP_OF_RANK (parent_link_metric stats) +
        (RANK_STRETCH : Int)) * (min_hoprankinc : Int)) % 65536).toNat

/-- The parent_is_acceptable of rpl-of0.c: the step of rank lies between
MIN_STEP_OF_RANK and MAX_STEP_OF_RANK. -/
def parent_is_acceptable (stats : Option Nat) : Prop :=
  (MIN_STEP_OF_RANK : Int) ≤ STEP_OF_RANK (parent_link_metric stats) ∧
    STEP_OF_RANK (parent_link_metric stats) ≤ (MAX_STEP_OF_RANK : Int)

instance (stats : Option Nat) : Decidable (parent_is_acceptable stats) := by
  unfold parent_is_acceptable; infer_instance

/-- The estimate r1 (and r2) computed by the OF0 best_parent:
DAG_RANK of the parent rank times the configured RPL_MIN_HOPRANKINC plus
the parent link metric, truncated by the uint16 rpl_rank_t local. -/
def rank_est (cfg_min_hoprankinc inst_min_hoprankinc : Nat) (p : Parent) : Nat :=
  (DAG_RANK p.rank inst_min_hoprankinc * cfg_min_hoprankinc + p.link_metric) % 65536

/-- The OF0 best_parent of rpl-of0.c.  The DAG_RANK of both parents is
taken against p1->dag->instance; pref stands for p1->dag's
preferred parent.  MIN_DIFFERENCE is the configured RPL_MIN_HOPRANKINC
plus half of it, and the window comparison is in int arithmetic. -/
def best_parent (cfg_min_hoprankinc inst_min_hoprankinc : Nat)
    (pref : Option Parent) (p1 p2 : Parent) : Option Parent :=
  let r1 := rank_est cfg_min_hoprankinc inst_min_hoprankinc p1
  let r2 := rank_est cfg_min_hoprankinc inst_min_hoprankinc p2
  let md : Int := (cfg_min_hoprankinc : Int) + (cfg_min_hoprankinc / 2 : Nat)
  if (r1 : Int) < (r2 : Int) + md ∧ (r1 : Int) > (r2 : Int) - md then pref
  else if r1 < r2 then some p1 else some p2

/-- The OF0 best_dag of rpl-of0.c. -/
def best_dag (d1 d2 : DagR) : DagR :=
  if d1.grounded ∧ ¬ d2.grounded then d1
  else if ¬ d1.grounded ∧ d2.grounded then d2
  else if d1.preference < d2.preference then d2
  else if d1.preference > d2.preference then d1
  else if d2.rank < d1.rank then d2
  else d1

end of0

/-- RPL_OPTION_PAD1, the single-octet padding option type. -/
def RPL_OPTION_PAD1 : Nat := 0

/-- RPL_OPTION_DAG_METRIC_CONTAINER option type. -/
def RPL_OPTION_DAG_METRIC_CONTAINER : Nat := 2

/-- RPL_OPTION_ROUTE_INFO option type. -/
def RPL_OPTION_ROUTE_INFO : Nat := 3

/-- RPL_OPTION_DAG_CONF option type. -/
def RPL_OPTION_DAG_CONF : Nat := 4

/-- RPL_OPTION_TARGET option type. -/
def RPL_OPTION_TARGET : Nat := 5

/-- RPL_OPTION_TRANSIT option type. -/
def RPL_OPTION_TRANSIT : Nat := 6

/-- RPL_OPTION_PREFIX_INFO option type. -/
def RPL_OPTION_PREFIX_INFO : Nat := 8

/-- Modelled from the spec: the metric-container type codes of the
external header (RPL_DAG_MC_NONE, RPL_DAG_MC_ENERGY, RPL_DAG_MC_ETX per
RFC 6551); only their distinctness matters here. -/
def RPL_DAG_MC_NONE : Nat := 0

/-- Modelled from the spec: the energy metric-container type code. -/
def RPL_DAG_MC_ENERGY : Nat := 2

/-- Modelled from the spec: the ETX metric-container type code. -/
def RPL_DAG_MC_ETX : Nat := 7

/-- A metric container record (type, flags, aggregation, precedence,
length, and the typed value; the C object union is modelled with
separate fields of which only the one selected by the type is
meaningful). -/
structure RplMc where
  type : Nat
  flags : Nat
  aggr : Nat
  prec : Nat
  length : Nat
  etx : Nat
  energy_flags : Nat
  energy_est : Nat
deriving DecidableEq, Repr

/-- A prefix record as parsed from route-info and prefix-info options. -/
structure RplPrefixInfo where
  length : Nat
  flags : Nat
  lifetime : Nat
  pfx : List Nat
deriving DecidableEq, Repr

/-- The rpl_dio_t record filled by dio_input. -/
structure RplDio where
  instance_id : Nat
  version : Nat
  rank : Nat
  grounded : Bool
  mop : Nat
  preference : Nat
  dtsn : Nat
  dag_id : List Nat
  mc : RplMc
  destination_pfx : RplPrefixInfo
  dag_intdoubl : Nat
  dag_intmin : Nat
  dag_redund : Nat
  dag_max_rankinc : Nat
  dag_min_hoprankinc : Nat
  ocp : Nat
  default_lifetime : Nat
  lifetime_unit : Nat
  prefix_info : RplPrefixInfo
deriving DecidableEq, Repr

/-- The compile-time defaults installed by dio_input before parsing, for
the case that the DAG configuration option is absent (the configuration
header is outside src/, so they stay symbolic). -/
structure DioDefaults where
  dag_intdoubl : Nat
  dag_intmin : Nat
  dag_redund : Nat
  dag_min_hoprankinc : Nat
  dag_max_rankinc : Nat
  ocp : Nat
  default_lifetime : Nat
  lifetime_unit : Nat
deriving DecidableEq, Repr

/-- Outcome of dio_input: a parsed DIO handed to rpl_process_dio, a
discard that increments the malformed counter, or the silent discard
taken for an unhandled metric-container type. -/
inductive DioResult where
  | ok (d : RplDio)
  | malformed
  | drop
deriving DecidableEq, Repr

/-- The DIO suboption loop of dio_input.  Each iteration reads the
option type, computes the total length (one octet for PAD1, otherwise
two plus the declared length), rejects the message as malformed when the
option would extend past the payload end, then dispatches on the type
exactly as the switch in the source.  The fuel argument only bounds the
recursion; blen iterations always suffice because every option advances
the position. -/
def dioOptions (fuel : Nat) (buf : List Nat) (blen i : Nat) (d : RplDio) : DioResult :=
  match fuel with
  | 0 => DioResult.ok d
  | fuel + 1 =>
    if i < blen then
      let t := byteAt buf i
      let len := if t = RPL_OPTION_PAD1 then 1 else 2 + byteAt buf (i + 1)
      if blen < len + i then DioResult.malformed
      else if t = RPL_OPTION_DAG_METRIC_CONTAINER then
        if len < 6 then DioResult.malformed
        else
          let mc0 : RplMc :=
            { type := byteAt buf (i + 2)
              flags := byteAt buf (i + 3) * 2 + byteAt buf (i + 4) / 128
              aggr := byteAt buf (i + 4) / 16 % 4
              prec := byteAt buf (i + 4) % 16
              length := byteAt buf (i + 5)
              etx := d.mc.etx
              energy_flags := d.mc.energy_flags
              energy_est := d.mc.energy_est }
          if mc0.type = RPL_DAG_MC_NONE then
            dioOptions fuel buf blen (i + len) { d with mc := mc0 }
          else if mc0.type = RPL_DAG_MC_ETX then
            dioOptions fuel buf blen (i + len)
              { d with mc := { mc0 with etx := get16 buf (i + 6) } }
          else if mc0.type = RPL_DAG_MC_ENERGY then
            dioOptions fuel buf blen (i + len)
              { d with mc := { mc0 with energy_flags := byteAt buf (i + 6),
                                        energy_est := byteAt buf (i + 7) } }
          else DioResult.drop
      else if t = RPL_OPTION_ROUTE_INFO then
        if len < 9 then DioResult.malformed
        else if (byteAt buf (i + 2) + 7) / 8 + 8 ≤ len ∧ byteAt buf (i + 2) ≤ 128 then
          dioOptions fuel buf blen (i + len)
            { d with destination_pfx :=
                { length := byteAt buf (i + 2)
                  flags := byteAt buf (i + 3)
                  lifetime := get32 buf (i + 4)
                  pfx := readBytes buf (i + 8) ((byteAt buf (i + 2) + 7) / 8) ++
                         List.replicate (16 - (byteAt buf (i + 2) + 7) / 8) 0 } }
        else DioResult.malformed
      else if t = RPL_OPTION_DAG_CONF then
        if len ≠ 16 then DioResult.malformed
        else
          dioOptions fuel buf blen (i + len)
            { d with
                dag_intdoubl := byteAt buf (i + 3)
                dag_intmin := byteAt buf (i + 4)
                dag_redund := byteAt buf (i + 5)
                dag_max_rankinc := get16 buf (i + 6)
                dag_min_hoprankinc := get16 buf (i + 8)
                ocp := get16 buf (i + 10)
                default_lifetime := byteAt buf (i + 13)
                lifetime_unit := get16 buf (i + 14) }
      else if t = RPL_OPTION_PREFIX_INFO then
        if len ≠ 32 then DioResult.malformed
        else
          dioOptions fuel buf blen (i + len)
            { d with prefix_info :=
                { length := byteAt buf (i + 2)
                  flags := byteAt buf (i + 3)
                  lifetime := get32 buf (i + 8)
                  pfx := readBytes buf (i + 16) 16 } }
      else dioOptions fuel buf blen (i + len) d
    else DioResult.ok d

/-- The decode side of dio_input: the base (instance id, version,
big-endian rank, the grounded, MOP and preference fields of the flags
octet, DTSN, two reserved octets, sixteen octets of DAG id), the
compile-time defaults for the configuration fields, then the suboption
loop starting at offset 24.  The grounded bit test models
buffer and RPL_DIO_GROUNDED as a boolean, which is how the field is
consumed. -/
def dioDecode (dflt : DioDefaults) (buf : List Nat) (blen : Nat) : DioResult :=
  dioOptions blen buf blen 24
    { instance_id := byteAt buf 0
      version := byteAt buf 1
      rank := get16 buf 2
      grounded := decide (128 ≤ byteAt buf 4)
      mop := byteAt buf 4 / 8 % 8
      preference := byteAt buf 4 % 8
      dtsn := byteAt buf 5
      dag_id := readBytes buf 8 16
      mc := ⟨0, 0, 0, 0, 0, 0, 0, 0⟩
      destination_pfx := ⟨0, 0, 0, List.replicate 16 0⟩
      dag_intdoubl := dflt.dag_intdoubl
      dag_intmin := dflt.dag_intmin
      dag_redund := dflt.dag_redund
      dag_max_rankinc := dflt.dag_max_rankinc
      dag_min_hoprankinc := dflt.dag_min_hoprankinc
      ocp := dflt.ocp
      default_lifetime := dflt.default_lifetime
      lifetime_unit := dflt.lifetime_unit
      prefix_info := ⟨0, 0, 0, List.replicate 16 0⟩ }

/-- The instance-side inputs of dio_output, taken at the moment the
metric container is emitted (dio_output first lets the objective
function refresh instance->mc and then serialises it, so the mc field
here is the refreshed container). -/
structure DioOutInstance where
  instance_id : Nat
  mop : Nat
  dtsn_out : Nat
  mc : RplMc
  dio_intdoubl : Nat
  dio_intmin : Nat
  dio_redundancy : Nat
  max_rankinc : Nat
  min_hoprankinc : Nat
  ocp : Nat
  default_lifetime : Nat
  lifetime_unit : Nat
deriving DecidableEq, Repr

/-- The DAG-side inputs of dio_output. -/
structure DioOutDag where
  version : Nat
  rank : Nat
  grounded : Bool
  preference : Nat
  dag_id : List Nat
  prefix_info : RplPrefixInfo
deriving DecidableEq, Repr

/-- The byte layout produced by dio_output of rpl-icmp6.c in the
standard (non-leaf) build: the 24-octet base, the metric-container
option when the type is not NONE (returning none for an unhandled type,
where the source bails out without sending), the always-present DAG
configuration option, and the prefix-information option when a prefix is
configured.  The flags octet adds the disjoint grounded bit, 3-bit MOP
field and 3-bit masked preference. -/
def dio_output (inst : DioOutInstance) (dag : DioOutDag) : Option (List Nat) :=
  let base := [inst.instance_id, dag.version] ++ set16 dag.rank ++
    [(if dag.grounded then 128 else 0) + inst.mop * 8 + dag.preference % 8,
     inst.dtsn_out, 0, 0] ++ dag.dag_id
  let mcOpt : Option (List Nat) :=
    if inst.mc.type = RPL_DAG_MC_NONE then some []
    else
      let hdr := [RPL_OPTION_DAG_METRIC_CONTAINER, 6, inst.mc.type,
                  inst.mc.flags / 2,
                  inst.mc.flags % 2 * 128 + inst.mc.aggr * 16 + inst.mc.prec]
      if inst.mc.type = RPL_DAG_MC_ETX then
        some (hdr ++ [2] ++ set16 inst.mc.etx)
      else if inst.mc.type = RPL_DAG_MC_ENERGY then
        some (hdr ++ [2, inst.mc.energy_flags, inst.mc.energy_est])
      else none
  match mcOpt with
  | none => none
  | some mcb =>
    let conf := [RPL_OPTION_DAG_CONF, 14, 0, inst.dio_intdoubl, inst.dio_intmin,
                 inst.dio_redundancy] ++ set16 inst.max_rankinc ++
                set16 inst.min_hoprankinc ++ set16 inst.ocp ++
                [0, inst.default_lifetime] ++ set16 inst.lifetime_unit
    let pfxOpt :=
      if 0 < dag.prefix_info.length then
        [RPL_OPTION_PREFIX_INFO, 30, dag.prefix_info.length, dag.prefix_info.flags] ++
        set32 dag.prefix_info.lifetime ++ set32 dag.prefix_info.lifetime ++
        List.replicate 4 0 ++ dag.prefix_info.pfx
      else []
    some (base ++ mcb ++ conf ++ pfxOpt)

/-- ICMPv6 RPL code for DAO messages (spec section 6). -/
def RPL_CODE_DAO : Nat := 2

/-- ICMPv6 RPL code for DCO messages (spec section 6). -/
def RPL_CODE_DCO : Nat := 4

/-- Modelled from the spec: the mode-of-operation codes, in the order of
the section 3 enumeration (no-downward 0, non-storing 1, storing 2,
storing-with-multicast 3); the numeric values live in a header outside
src/. -/
def RPL_MOP_NON_STORING : Nat := 1

/-- Modelled from the spec: RPL_IS_STORING holds of the two storing
modes of operation. -/
def RPL_IS_STORING (mop : Nat) : Prop := mop = 2 ∨ mop = 3

instance (mop : Nat) : Decidable (RPL_IS_STORING mop) := by
  unfold RPL_IS_STORING; infer_instance

/-- The K flag of the DAO base (ACK requested), bit 0x80. -/
def RPL_DAO_K_FLAG : Nat := 128

/-- The D flag of the DAO base (DAG id present), bit 0x40. -/
def RPL_DAO_D_FLAG : Nat := 64

/-- DAO-ACK status for unconditional acceptance. -/
def RPL_DAO_ACK_UNCONDITIONAL_ACCEPT : Nat := 0

/-- Modelled from the spec: the negative DAO-ACK status for a node that
cannot accept (about 128 per spec section 6). -/
def RPL_DAO_ACK_UNABLE_TO_ACCEPT : Nat := 128

/-- Modelled from the spec: the negative DAO-ACK status used by the root
(about 129 per spec section 6). -/
def RPL_DAO_ACK_UNABLE_TO_ADD_ROUTE_AT_ROOT : Nat := 129

/-- Modelled from the spec: the internal TIMEOUT status handed to the
objective function when retransmissions are exhausted. -/
def RPL_DAO_ACK_TIMEOUT : Nat := 255

/-- RPL_ZERO_LIFETIME, the No-Path lifetime. -/
def RPL_ZERO_LIFETIME : Nat := 0

/-- Modelled from the spec: the configured NOPATH removal delay
(RPL_NOPATH_REMOVAL_DELAY lives in a configuration header outside
src/). -/
def RPL_NOPATH_REMOVAL_DELAY : Nat := 60

/-- Modelled from the spec: the updated-parent flag bit set when a loop
is detected (RPL_PARENT_FLAG_UPDATED, header outside src/). -/
def RPL_PARENT_FLAG_UPDATED : Nat := 1

/-- Modelled from the spec: RPL_LOLLIPOP_INCREMENT of the 8-bit lollipop
counter (rpl-private.h, not under src/): the counter advances by one
within its region, the linear startup region wrapping into the circular
region and the circular region wrapping within itself. -/
def lollipopIncrement (c : Nat) : Nat :=
  if 127 < c then (c + 1) % 256 else (c + 1) % 128

/-- Modelled from the spec: lollipop_greater_than (defined in rpl.c,
which is not under src/), following section 4.2: with both counters in
the circular region 0..127, a is newer than b when the forward distance
from b to a is nonzero and below 64; with both in the linear startup
region 128..255 the numeric order decides; in mixed regions the linear
value is the older one. -/
def lollipop_greater_than (a b : Nat) : Bool :=
  if a ≤ 127 ∧ b ≤ 127 then decide (a ≠ b ∧ (a + 128 - b) % 128 < 64)
  else if 128 ≤ a ∧ 128 ≤ b then decide (b < a)
  else decide (128 ≤ b)

/-- A route-table entry with the observed state fields of the spec
section 3 data model. -/
structure RouteEntry where
  pfx : List Nat
  length : Nat
  nexthop : Option (List Nat)
  lifetime : Nat
  dao_seqno_in : Nat
  dao_seqno_out : Nat
  dao_path_sequence : Nat
  dao_pending : Bool
  nopath_received : Bool
deriving DecidableEq, Repr

/-- The node state touched by the DAO and DCO handlers: the instance
fields they read, the current DAG (id, rank, preferred parent, parent
set), the route table, and the module-level dao_sequence and
path_sequence lollipop counters of rpl-icmp6.c. -/
structure Node where
  instance_id : Nat
  mop : Nat
  default_lifetime : Nat
  lifetime_unit : Nat
  min_hoprankinc : Nat
  dag_id : List Nat
  dag_rank : Nat
  dag_preferred : Option Parent
  dag_parents : List Parent
  routes : List RouteEntry
  dao_sequence : Nat
  path_sequence : Nat
deriving DecidableEq, Repr

/-- Environment answers of the external collaborators: whether the
neighbor cache and the route table can allocate, and the global address
of this node (none when get_global_addr fails). -/
structure Env where
  nbrAddOk : Bool
  routeAddOk : Bool
  globalAddr : Option (List Nat)
deriving DecidableEq, Repr

/-- Observable actions emitted by a handler, in emission order. -/
inductive Ev where
  | icmp6Send (dest : List Nat) (code : Nat) (payload : List Nat) (plen : Nat)
  | daoAck (dest : List Nat) (seq status : Nat)
  | dcoAck (dest : List Nat) (seq status : Nat)
  | dcoSend (target dest : List Nat) (pathSeq : Nat)
deriving DecidableEq, Repr

/-- The statistics counters the handlers may bump (as deltas of one
handler run). -/
structure Stats where
  malformed_msgs : Nat
  dco_ignored : Nat
  dco_forwarded : Nat
  mem_overflows : Nat
deriving DecidableEq, Repr

/-- Result of one handler run: the new node state, the emitted actions,
and the statistics deltas. -/
structure HandlerResult where
  node : Node
  events : List Ev
  stats : Stats
deriving DecidableEq, Repr

/-- ROOT_RANK of an instance (rpl-private.h): the minimum hop rank
increase. -/
def ROOT_RANK (node : Node) : Nat := node.min_hoprankinc

/-- RPL_LIFETIME of rpl-private.h: the lifetime unit of the instance
times the lifetime octet. -/
def RPL_LIFETIME (node : Node) (lifetime : Nat) : Nat :=
  node.lifetime_unit * lifetime

/-- The uip_is_addr_mcast test of the external stack: the first octet of
the address is 0xff. -/
def uip_is_addr_mcast (a : List Nat) : Bool := a.getD 0 0 == 255

/-- The uip_is_addr_mcast_global test of the external stack: multicast
with global scope (second octet low nibble 0xe). -/
def uip_is_addr_mcast_global (a : List Nat) : Bool :=
  a.getD 0 0 == 255 && a.getD 1 0 % 16 == 14

/-- Modelled from the spec: the route-table lookup of the external
storage (section 6 collaborator contract lookup(prefix)): the entry
recorded for the prefix. -/
def uip_ds6_route_lookup (routes : List RouteEntry) (p : List Nat) :
    Option RouteEntry :=
  routes.find? (fun r => r.pfx == p)

/-- Replaces a route entry in place (a write through the entry
pointer). -/
def updateRoute (routes : List RouteEntry) (old upd : RouteEntry) : List RouteEntry :=
  routes.map (fun x => if x = old then upd else x)


/-- Modelled from the spec: rpl_add_route (rpl-dag.c, which is not under
src/), per the section 4.6 contract: insert or update the route-table
entry for the target, pointing its next hop at the DAO sender; an
existing entry keeps its sequence-number state, a fresh entry starts
cleared, and allocation of a fresh entry may fail. -/
def rpl_add_route (env : Env) (routes : List RouteEntry) (p : List Nat)
    (plen : Nat) (nexthop : List Nat) : Option (RouteEntry × List RouteEntry) :=
  match routes.find? (fun r => r.pfx == p) with
  | some r =>
    let r2 := { r with length := plen, nexthop := some nexthop }
    some (r2, updateRoute routes r r2)
  | none =>
    if env.routeAddOk then
      let r2 : RouteEntry := ⟨p, plen, some nexthop, 0, 0, 0, 0, false, false⟩
      some (r2, routes ++ [r2])
    else none

/-- The locals filled by the DAO suboption loop of dao_input_storing:
target prefix length and prefix, transit path sequence and lifetime.
The pathSequence local of the source is uninitialised until a transit
option arrives, so its start value is a parameter of the model. -/
structure DaoOpts where
  prefixlen : Nat
  pfx : List Nat
  pathSequence : Nat
  lifetime : Nat
deriving DecidableEq, Repr

/-- The DAO suboption loop of dao_input_storing: no length validation is
performed; a target option overwrites the prefix (zero-padded to sixteen
octets after copying ceil(prefixlen / 8) octets) and a transit option
records path sequence and lifetime octets.  Fuel bounds the recursion;
blen iterations always suffice. -/
def daoOptions (fuel : Nat) (buf : List Nat) (blen i : Nat) (acc : DaoOpts) : DaoOpts :=
  match fuel with
  | 0 => acc
  | fuel + 1 =>
    if i < blen then
      let t := byteAt buf i
      let len := if t = RPL_OPTION_PAD1 then 1 else 2 + byteAt buf (i + 1)
      let acc2 :=
        if t = RPL_OPTION_TARGET then
          { acc with prefixlen := byteAt buf (i + 3)
                     pfx := readBytes buf (i + 4) ((byteAt buf (i + 3) + 7) / 8) ++
                            List.replicate (16 - (byteAt buf (i + 3) + 7) / 8) 0 }
        else if t = RPL_OPTION_TRANSIT then
          { acc with pathSequence := byteAt buf (i + 4), lifetime := byteAt buf (i + 5) }
        else acc
      daoOptions fuel buf blen (i + len) acc2
    else acc

/-- The locals filled by the DCO suboption loop; the prefix,
pathSequence and pathLifetime locals of dco_input are uninitialised
until the matching option arrives, so their start values are parameters
of the model. -/
structure DcoOpts where
  prefixlen : Nat
  pfx : List Nat
  pathSequence : Nat
  pathLifetime : Nat
deriving DecidableEq, Repr

/-- The DCO suboption loop of dco_input, identical to the DAO loop
except that the transit option also records the path lifetime octet. -/
def dcoOptions (fuel : Nat) (buf : List Nat) (blen i : Nat) (acc : DcoOpts) : DcoOpts :=
  match fuel with
  | 0 => acc
  | fuel + 1 =>
    if i < blen then
      let t := byteAt buf i
      let len := if t = RPL_OPTION_PAD1 then 1 else 2 + byteAt buf (i + 1)
      let acc2 :=
        if t = RPL_OPTION_TARGET then
          { acc with prefixlen := byteAt buf (i + 3)
                     pfx := readBytes buf (i + 4) ((byteAt buf (i + 3) + 7) / 8) ++
                            List.replicate (16 - (byteAt buf (i + 3) + 7) / 8) 0 }
        else if t = RPL_OPTION_TRANSIT then
          { acc with pathSequence := byteAt buf (i + 4), pathLifetime := byteAt buf (i + 5) }
        else acc
      dcoOptions fuel buf blen (i + len) acc2
    else acc

/-- The tail of dao_input_storing from the fwd_dao label: for a DAO
learned from a unicast sender, decide the acknowledgement (K flag set,
and the route present and either settled with the same incoming sequence
or the node is root), forward the DAO to the preferred parent with octet
three rewritten to the outgoing sequence (reusing the recorded outgoing
sequence for a pending retransmission, otherwise allocating one through
prepare_for_dao_fwd, and using zero when no route entry is at hand),
then acknowledge, then send a DCO towards the previous next hop when the
next hop changed. -/
def fwdDaoPhase (node : Node) (stats : Stats) (rep : Option RouteEntry)
    (routes : List RouteEntry) (daoSeq : Nat) (curNextHop : Option (List Nat))
    (acc : DaoOpts) (flags sequence : Nat) (unicast is_root : Bool)
    (sender : List Nat) (buf : List Nat) (blen : Nat) : HandlerResult :=
  if unicast then
    let should_ack : Bool :=
      match rep with
      | some r =>
        decide (128 ≤ flags) &&
          (decide (¬ r.dao_pending ∧ r.dao_seqno_in = sequence) || is_root)
      | none => false
    let step : Nat × List RouteEntry × List Ev :=
      match node.dag_preferred with
      | none => (daoSeq, routes, [])
      | some pp =>
        match pp.addr with
        | none => (daoSeq, routes, [])
        | some pa =>
          match rep with
          | none => (daoSeq, routes, [Ev.icmp6Send pa RPL_CODE_DAO (buf.set 3 0) blen])
          | some r =>
            if r.dao_pending ∧ r.dao_seqno_in = sequence then
              (daoSeq, routes,
               [Ev.icmp6Send pa RPL_CODE_DAO (buf.set 3 r.dao_seqno_out) blen])
            else
              let s := lollipopIncrement daoSeq
              let r2 := { r with dao_seqno_in := sequence, dao_seqno_out := s,
                                 dao_pending := true }
              (s, updateRoute routes r r2,
               [Ev.icmp6Send pa RPL_CODE_DAO (buf.set 3 s) blen])
    let evAck := if should_ack then
        [Ev.daoAck sender sequence RPL_DAO_ACK_UNCONDITIONAL_ACCEPT] else []
    let evDco :=
      match curNextHop with
      | some nh => if nh ≠ sender then [Ev.dcoSend acc.pfx nh acc.pathSequence] else []
      | none => []
    ⟨{ node with routes := step.2.1, dao_sequence := step.1 },
     step.2.2 ++ evAck ++ evDco, stats⟩
  else ⟨{ node with routes := routes, dao_sequence := daoSeq }, [], stats⟩

/-- The body of dao_input_storing after loop detection: run the option
loop from pos, take the multicast-route branch for a global multicast
target (the multicast table itself is an external collaborator, so only
the control flow is modelled), otherwise look the target up; a zero
lifetime is a No-Path DAO (mark the matching route NOPATH with the
removal delay, forward to the preferred parent under a fresh sequence
from prepare_for_dao_fwd, acknowledge when K is set); otherwise add the
neighbor (negative acknowledgement and drop on failure), remember the
current next hop, insert or update the route (negative acknowledgement
and mem_overflows on failure), set lifetime and path sequence, clear
NOPATH, and finish with the fwd_dao phase. -/
def daoMainPhase (env : Env) (node : Node) (buf : List Nat) (blen : Nat)
    (sender : List Nat) (gPathSeq flags sequence : Nat)
    (unicast is_root : Bool) (pos : Nat) : HandlerResult :=
  let stats0 : Stats := ⟨0, 0, 0, 0⟩
  let acc := daoOptions blen buf blen pos
    ⟨0, List.replicate 16 0, gPathSeq, node.default_lifetime⟩
  if uip_is_addr_mcast_global acc.pfx then
    fwdDaoPhase node stats0 none node.routes node.dao_sequence none acc flags
      sequence unicast is_root sender buf blen
  else
    let rep := uip_ds6_route_lookup node.routes acc.pfx
    if acc.lifetime = RPL_ZERO_LIFETIME then
      let res : List RouteEntry × Nat × List Ev :=
        match rep with
        | some r =>
          if ¬ r.nopath_received ∧ r.length = acc.prefixlen ∧
             r.nexthop = some sender then
            let r1 := { r with nopath_received := true,
                               lifetime := RPL_NOPATH_REMOVAL_DELAY }
            match node.dag_preferred with
            | some pp =>
              match pp.addr with
              | some pa =>
                let s := lollipopIncrement node.dao_sequence
                let r2 := { r1 with dao_seqno_in := sequence, dao_seqno_out := s,
                                    dao_pending := true }
                (updateRoute node.routes r r2, s,
                 [Ev.icmp6Send pa RPL_CODE_DAO (buf.set 3 s) blen])
              | none => (updateRoute node.routes r r1, node.dao_sequence, [])
            | none => (updateRoute node.routes r r1, node.dao_sequence, [])
          else (node.routes, node.dao_sequence, [])
        | none => (node.routes, node.dao_sequence, [])
      let evAck := if 128 ≤ flags then
          [Ev.daoAck sender sequence RPL_DAO_ACK_UNCONDITIONAL_ACCEPT] else []
      ⟨{ node with routes := res.1, dao_sequence := res.2.1 },
       res.2.2 ++ evAck, stats0⟩
    else
      if env.nbrAddOk = false then
        ⟨node,
         if 128 ≤ flags then
           [Ev.daoAck sender sequence
             (if is_root then RPL_DAO_ACK_UNABLE_TO_ADD_ROUTE_AT_ROOT
              else RPL_DAO_ACK_UNABLE_TO_ACCEPT)]
         else [], stats0⟩
      else
        let curNextHop : Option (List Nat) :=
          match rep with
          | some r => r.nexthop
          | none => none
        match rpl_add_route env node.routes acc.pfx acc.prefixlen sender with
        | none =>
          ⟨node,
           if 128 ≤ flags then
             [Ev.daoAck sender sequence
               (if is_root then RPL_DAO_ACK_UNABLE_TO_ADD_ROUTE_AT_ROOT
                else RPL_DAO_ACK_UNABLE_TO_ACCEPT)]
           else [], { stats0 with mem_overflows := 1 }⟩
        | some (r2, routes1) =>
          let r3 := { r2 with lifetime := RPL_LIFETIME node acc.lifetime,
                              dao_path_sequence := acc.pathSequence,
                              nopath_received := false }
          let routes2 := updateRoute routes1 r2 r3
          fwdDaoPhase node stats0 (some r3) routes2 node.dao_sequence curNextHop
            acc flags sequence unicast is_root sender buf blen

/-- The dao_input_storing handler of rpl-icmp6.c: parse instance id,
flags, sequence; discard a DAO whose present DAG id differs from ours;
for a unicast DAO detect forwarding loops (a known parent with a lower
integral rank, or the preferred parent, is poisoned to INFINITE_RANK and
flagged updated, and the DAO dropped); then run the main phase.  The
gPathSeq parameter carries the uninitialised stack value of the
pathSequence local. -/
def dao_input_storing (env : Env) (node : Node) (buf : List Nat) (blen : Nat)
    (sender : List Nat) (gPathSeq : Nat) : HandlerResult :=
  let stats0 : Stats := ⟨0, 0, 0, 0⟩
  let flags := byteAt buf 1
  let sequence := byteAt buf 3
  let is_root : Bool := decide (node.dag_rank = ROOT_RANK node)
  if 64 ≤ flags % 128 ∧ readBytes buf 4 16 ≠ node.dag_id then ⟨node, [], stats0⟩
  else
    let pos := if 64 ≤ flags % 128 then 20 else 4
    let unicast : Bool := ! uip_is_addr_mcast sender
    let parentHit : Option Parent :=
      if unicast then node.dag_parents.find? (fun p => p.addr == some sender)
      else none
    match parentHit with
    | some p =>
      if DAG_RANK p.rank node.min_hoprankinc <
           DAG_RANK node.dag_rank node.min_hoprankinc ∨
         node.dag_preferred = some p then
        ⟨{ node with dag_parents := node.dag_parents.map fun q =>
             if q = p then { q with rank := INFINITE_RANK,
                                    flags := q.flags ||| RPL_PARENT_FLAG_UPDATED }
             else q },
         [], stats0⟩
      else
        daoMainPhase env node buf blen sender gPathSeq flags sequence unicast
          is_root pos
    | none =>
      daoMainPhase env node buf blen sender gPathSeq flags sequence unicast
        is_root pos

/-- The dco_input handler of rpl-icmp6.c: parse instance id, flags,
sequence; discard on a foreign DAG id; run the option loop; when the
target has a route and the transit path lifetime is zero, forward the
DCO to the next hop and delete the route if the received path sequence
is lollipop-greater than the stored one (otherwise count it ignored),
and acknowledge with status zero when K is set; otherwise, a target
equal to our own global address is silently ignored (counted ignored,
with no acknowledgement), and any other target draws a negative
acknowledgement with status 234 when K is set.  The g-parameters carry
the uninitialised stack values of the prefix, pathSequence and
pathLifetime locals. -/
def dco_input (env : Env) (node : Node) (buf : List Nat) (blen : Nat)
    (sender : List Nat) (gPfx : List Nat) (gPathSeq gPathLifetime : Nat) :
    HandlerResult :=
  let stats0 : Stats := ⟨0, 0, 0, 0⟩
  let flags := byteAt buf 1
  let dcoSeq := byteAt buf 3
  if 64 ≤ flags % 128 ∧ readBytes buf 4 16 ≠ node.dag_id then ⟨node, [], stats0⟩
  else
    let pos := if 64 ≤ flags % 128 then 20 else 4
    let acc := dcoOptions blen buf blen pos ⟨0, gPfx, gPathSeq, gPathLifetime⟩
    match uip_ds6_route_lookup node.routes acc.pfx with
    | some r =>
      if acc.pathLifetime = 0 then
        let resA : List RouteEntry × Stats × List Ev :=
          match r.nexthop with
          | some nh =>
            if lollipop_greater_than acc.pathSequence r.dao_path_sequence then
              (node.routes.erase r, { stats0 with dco_forwarded := 1 },
               [Ev.icmp6Send nh RPL_CODE_DCO buf blen])
            else (node.routes, { stats0 with dco_ignored := 1 }, [])
          | none => (node.routes, { stats0 with dco_ignored := 1 }, [])
        let evAck := if 128 ≤ flags then [Ev.dcoAck sender dcoSeq 0] else []
        ⟨{ node with routes := resA.1 }, resA.2.2 ++ evAck, resA.2.1⟩
      else
        if env.globalAddr = some acc.pfx then
          ⟨node, [], { stats0 with dco_ignored := 1 }⟩
        else
          ⟨node, (if 128 ≤ flags then [Ev.dcoAck sender dcoSeq 234] else []),
           stats0⟩
    | none =>
      if env.globalAddr = some acc.pfx then
        ⟨node, [], { stats0 with dco_ignored := 1 }⟩
      else
        ⟨node, (if 128 ≤ flags then [Ev.dcoAck sender dcoSeq 234] else []),
         stats0⟩

/-- The byte layout produced by dao_output_target_seq of rpl-icmp6.c:
instance id; flags with the D bit when RPL_DAO_SPECIFY_DAG is configured
and the K bit when RPL_WITH_DAO_ACK is configured and the lifetime is
not zero; a reserved octet; the sequence number; the DAG id when D is
set; a target option carrying the full 128-bit prefix; and a transit
option (length 4 towards a storing parent, length 20 with the parent
address towards the root in non-storing mode) carrying the module
path_sequence and the lifetime. -/
def dao_output_target_seq (specifyDag withDaoAck : Bool) (node : Node)
    (parentAddr pfx : List Nat) (lifetime seq_no : Nat) : List Nat :=
  [node.instance_id,
   (if specifyDag then RPL_DAO_D_FLAG else 0) +
     (if withDaoAck ∧ lifetime ≠ RPL_ZERO_LIFETIME then RPL_DAO_K_FLAG else 0),
   0, seq_no] ++
  (if specifyDag then node.dag_id else []) ++
  ([RPL_OPTION_TARGET, 2 + 16, 0, 128] ++ pfx) ++
  ([RPL_OPTION_TRANSIT, if node.mop ≠ RPL_MOP_NON_STORING then 4 else 20, 0, 0,
    node.path_sequence, lifetime] ++
   (if node.mop ≠ RPL_MOP_NON_STORING then []
    else node.dag_id.take 8 ++ parentAddr.drop 8))

/-- The byte layout produced by dco_output of rpl-icmp6.c: instance id;
flags with the D bit when RPL_DAO_SPECIFY_DAG is configured and the K
bit when RPL_WITH_DCO_ACK is configured; a reserved octet; the current
dco_sequence; the DAG id when D is set; a target option carrying the
full 128-bit target; and a length-4 transit option carrying the path
sequence and a zero lifetime. -/
def dco_output (specifyDag withDcoAck : Bool) (iid : Nat) (dag_id : List Nat)
    (dcoSeq : Nat) (targetIP : List Nat) (pathSequence : Nat) : List Nat :=
  [iid,
   (if specifyDag then RPL_DAO_D_FLAG else 0) +
     (if withDcoAck then RPL_DAO_K_FLAG else 0),
   0, dcoSeq] ++
  (if specifyDag then dag_id else []) ++
  ([RPL_OPTION_TARGET, 2 + 16, 0, 128] ++ targetIP) ++
  [RPL_OPTION_TRANSIT, 4, 0, 0, pathSequence, 0]

/-- The typed view extracted by the parsing phase of dao_input_storing
(the same reads, factored out of the handler): instance id, flags,
sequence, and the option locals; none when a present DAG id differs from
ours. -/
def daoParse (node : Node) (buf : List Nat) (blen : Nat) (gPathSeq : Nat) :
    Option (Nat × Nat × Nat × DaoOpts) :=
  let flags := byteAt buf 1
  if 64 ≤ flags % 128 ∧ readBytes buf 4 16 ≠ node.dag_id then none
  else
    some (byteAt buf 0, flags, byteAt buf 3,
      daoOptions blen buf blen (if 64 ≤ flags % 128 then 20 else 4)
        ⟨0, List.replicate 16 0, gPathSeq, node.default_lifetime⟩)

/-- The typed view extracted by the parsing phase of dco_input (the same
reads, factored out of the handler). -/
def dcoParse (node : Node) (buf : List Nat) (blen : Nat) (gPfx : List Nat)
    (gPathSeq gPathLifetime : Nat) : Option (Nat × Nat × Nat × DcoOpts) :=
  let flags := byteAt buf 1
  if 64 ≤ flags % 128 ∧ readBytes buf 4 16 ≠ node.dag_id then none
  else
    some (byteAt buf 0, flags, byteAt buf 3,
      dcoOptions blen buf blen (if 64 ≤ flags % 128 then 20 else 4)
        ⟨0, gPfx, gPathSeq, gPathLifetime⟩)

/-- Modelled from the spec: RPL_DAO_MAX_RETRANSMISSIONS (configuration
header outside src/; section 8 scenario four uses five). -/
def RPL_DAO_MAX_RETRANSMISSIONS : Nat := 5

/-- The instance fields read by handle_dao_retransmission. -/
structure RetxInstance where
  mop : Nat
  lifetime_unit : Nat
  default_lifetime : Nat
  my_dao_seqno : Nat
  my_dao_transmissions : Nat
deriving DecidableEq, Repr

/-- Observable actions of the retransmission handler, in order. -/
inductive RetxEv where
  | daoAckCallback (status : Nat)
  | localRepair
  | ctimerSet
  | daoOutputSeq (lifetime seq : Nat)
deriving DecidableEq, Repr

/-- The handle_dao_retransmission handler of rpl-icmp6.c: when the
transmission count has reached RPL_DAO_MAX_RETRANSMISSIONS, the legacy
configuration lifetime_unit 0xffff with default_lifetime 0xff returns
silently; otherwise the objective function is notified with TIMEOUT
(only for a storing instance whose objective function has a
dao_ack_callback) and local repair is started.  Below the limit, the
handler returns when no global address is available, else re-arms the
timer, bumps the count and re-emits the DAO with the kept sequence
number. -/
def handle_dao_retransmission (inst : RetxInstance) (hasCallback hasGlobal : Bool) :
    RetxInstance × List RetxEv :=
  if RPL_DAO_MAX_RETRANSMISSIONS ≤ inst.my_dao_transmissions then
    if inst.lifetime_unit = 65535 ∧ inst.default_lifetime = 255 then (inst, [])
    else
      (inst,
       (if RPL_IS_STORING inst.mop ∧ hasCallback = true
        then [RetxEv.daoAckCallback RPL_DAO_ACK_TIMEOUT] else []) ++
       [RetxEv.localRepair])
  else
    if hasGlobal = false then (inst, [])
    else
      ({ inst with my_dao_transmissions := inst.my_dao_transmissions + 1 },
       [RetxEv.ctimerSet, RetxEv.daoOutputSeq inst.default_lifetime inst.my_dao_seqno])

/-- Concrete DIO instance inputs for the round-trip witness. -/
def c2I : DioOutInstance :=
  ⟨17, 2, 240, ⟨7, 9, 3, 5, 2, 300, 0, 0⟩, 8, 12, 10, 768, 256, 1, 30, 60⟩

/-- Concrete DIO DAG inputs for the round-trip witness. -/
def c2D : DioOutDag :=
  ⟨241, 512, true, 5, List.replicate 16 3, ⟨64, 3, 1000, List.replicate 16 7⟩⟩

/-- Concrete node state for the round-trip witness. -/
def c2N : Node :=
  ⟨17, 2, 30, 60, 256, List.replicate 16 3, 512, none, [], [], 240, 5⟩

/-- Concrete decode defaults for the round-trip witness. -/
def c2F : DioDefaults := ⟨1, 2, 3, 4, 5, 6, 7, 8⟩


/-- A concrete empty DIO record for the C1 witness. -/
def c1Dio : RplDio :=
  ⟨0, 0, 0, false, 0, 0, 0, [], ⟨0, 0, 0, 0, 0, 0, 0, 0⟩, ⟨0, 0, 0, []⟩,
   0, 0, 0, 0, 0, 0, 0, 0, ⟨0, 0, 0, []⟩⟩


/-- Expresses a sixteen-octet list through its octets, turning a
length-16 list variable into a literal list. -/
theorem len16_eq (l : List Nat) (h : l.length = 16) :
    l = [l.getD 0 0, l.getD 1 0, l.getD 2 0, l.getD 3 0, l.getD 4 0, l.getD 5 0,
         l.getD 6 0, l.getD 7 0, l.getD 8 0, l.getD 9 0, l.getD 10 0, l.getD 11 0,
         l.getD 12 0, l.getD 13 0, l.getD 14 0, l.getD 15 0] := by
  rcases l with _|⟨a0,_|⟨a1,_|⟨a2,_|⟨a3,_|⟨a4,_|⟨a5,_|⟨a6,_|⟨a7,_|⟨a8,_|⟨a9,_|⟨a10,_|⟨a11,_|⟨a12,_|⟨a13,_|⟨a14,_|⟨a15,l⟩⟩⟩⟩⟩⟩⟩⟩⟩⟩⟩⟩⟩⟩⟩⟩ <;>
    simp_all


/-- C7 counterexample: with ETX_DIVISOR = 128 the hysteresis window of
the MRHOF best_parent is strict.  Parent one (the preferred parent) has
path metric 384 and parent two has path metric 320; the difference is
exactly ETX_DIVISOR / 2 = 64, so the claim says the preferred parent is
kept, but the code returns the challenger with the smaller metric. -/
theorem c7_counterexample :
    mrhof.calculate_path_metric (some ⟨1, 256, 128, none, 0⟩) -
      mrhof.calculate_path_metric (some ⟨2, 256, 64, none, 0⟩) =
      ETX_DIVISOR / PARENT_SWITCH_THRESHOLD_DIV ∧
    mrhof.best_parent (some ⟨1, 256, 128, none, 0⟩)
      ⟨1, 256, 128, none, 0⟩ ⟨2, 256, 64, none, 0⟩ =
      some ⟨2, 256, 64, none, 0⟩ := by
  constructor
  · decide
  · decide

/-- C7 (amended): writing m1 and m2 for the path metrics rank plus
link metric, the MRHOF best_parent keeps the preferred parent exactly
when one of its arguments is the preferred parent and the metrics differ
strictly less than ETX_DIVISOR / 2; otherwise, including the boundary
case where the difference equals exactly ETX_DIVISOR / 2, it returns p1
when m1 < m2 and p2 otherwise. -/
theorem c7_best_parent_hysteresis (pref : Option Parent) (p1 p2 : Parent) :
    ((pref = some p1 ∨ pref = some p2) ∧
     ((mrhof.calculate_path_metric (some p1) : Int) <
        (mrhof.calculate_path_metric (some p2) : Int) + 64 ∧
      (mrhof.calculate_path_metric (some p1) : Int) >
        (mrhof.calculate_path_metric (some p2) : Int) - 64) →
      mrhof.best_parent pref p1 p2 = pref) ∧
    (¬ ((pref = some p1 ∨ pref = some p2) ∧
        ((mrhof.calculate_path_metric (some p1) : Int) <
           (mrhof.calculate_path_metric (some p2) : Int) + 64 ∧
         (mrhof.calculate_path_metric (some p1) : Int) >
           (mrhof.calculate_path_metric (some p2) : Int) - 64)) →
      mrhof.best_parent pref p1 p2 =
        some (if mrhof.calculate_path_metric (some p1) <
                 mrhof.calculate_path_metric (some p2) then p1 else p2)) := by
  constructor
  · intro h
    unfold mrhof.best_parent
    rw [if_pos]
    exact h
  · intro h
    unfold mrhof.best_parent
    rw [if_neg]
    exact h

/-- C7 witness: the hysteresis scenario of the spec (preferred parent
with path metric 384, challenger with path metric 352, difference 32)
keeps the preferred parent. -/
theorem c7_witness :
    ((some (⟨1, 256, 128, none, 0⟩ : Parent) = some ⟨1, 256, 128, none, 0⟩ ∨
      some (⟨1, 256, 128, none, 0⟩ : Parent) = some ⟨2, 256, 96, none, 0⟩) ∧
     ((mrhof.calculate_path_metric (some ⟨1, 256, 128, none, 0⟩) : Int) <
        (mrhof.calculate_path_metric (some ⟨2, 256, 96, none, 0⟩) : Int) + 64 ∧
      (mrhof.calculate_path_metric (some ⟨1, 256, 128, none, 0⟩) : Int) >
        (mrhof.calculate_path_metric (some ⟨2, 256, 96, none, 0⟩) : Int) - 64)) ∧
    mrhof.best_parent (some ⟨1, 256, 128, none, 0⟩)
      ⟨1, 256, 128, none, 0⟩ ⟨2, 256, 96, none, 0⟩ =
      some ⟨1, 256, 128, none, 0⟩ := by
  refine ⟨by decide, ?_⟩
  exact (c7_best_parent_hysteresis (some ⟨1, 256, 128, none, 0⟩)
    ⟨1, 256, 128, none, 0⟩ ⟨2, 256, 96, none, 0⟩).1 (by decide)

/-- C8 counterexample: on two DAGs that tie on grounded, preference and
rank the MRHOF best_dag returns its second argument while the OF0
best_dag returns its first, so the two functions are not extensionally
equal. -/
theorem c8_counterexample :
    of0.best_dag ⟨1, false, 0, 256⟩ ⟨2, false, 0, 256⟩ ≠
      mrhof.best_dag ⟨1, false, 0, 256⟩ ⟨2, false, 0, 256⟩ := by
  decide

/-- C8 (amended): the OF0 and MRHOF best_dag functions agree on every
pair of DAGs that do not tie simultaneously on grounded, preference and
rank (grounded first, then higher preference, then ascending rank); on a
full tie MRHOF returns the second argument while OF0 returns the
first. -/
theorem c8_best_dag_agreement (d1 d2 : DagR) :
    (¬ (d1.grounded = d2.grounded ∧ d1.preference = d2.preference ∧
        d1.rank = d2.rank) →
      of0.best_dag d1 d2 = mrhof.best_dag d1 d2) ∧
    (d1.grounded = d2.grounded ∧ d1.preference = d2.preference ∧
        d1.rank = d2.rank →
      mrhof.best_dag d1 d2 = d2 ∧ of0.best_dag d1 d2 = d1) := by
  unfold of0.best_dag mrhof.best_dag
  constructor
  · intro h
    by_cases hg : d1.grounded = d2.grounded
    · by_cases hp : d1.preference = d2.preference
      · have hr : d1.rank ≠ d2.rank := by
          intro hr; exact h ⟨hg, hp, hr⟩
        rcases Nat.lt_or_ge d1.rank d2.rank with hlt | hge
        · simp [hg, hp, hlt, Nat.not_lt.mpr (Nat.le_of_lt hlt)]
        · have hlt2 : d2.rank < d1.rank := Nat.lt_of_le_of_ne hge (Ne.symm hr)
          simp [hg, hp, hlt2, Nat.not_lt.mpr (Nat.le_of_lt hlt2)]
      · rcases Nat.lt_or_ge d1.preference d2.preference with hlt | hge
        · simp [hg, hp, hlt, Nat.not_lt.mpr (Nat.le_of_lt hlt)]
        · have hlt2 : d2.preference < d1.preference :=
            Nat.lt_of_le_of_ne hge (fun he => hp he.symm)
          simp [hg, hp, hlt2, Nat.not_lt.mpr (Nat.le_of_lt hlt2)]
    · cases h1 : d1.grounded <;> cases h2 : d2.grounded <;>
        simp_all
  · rintro ⟨hg, hp, hr⟩
    simp [hg, hp, hr]

/-- C8 witness: on DAGs differing in rank the two best_dag functions
agree. -/
theorem c8_witness :
    ¬ ((⟨1, false, 0, 256⟩ : DagR).grounded = (⟨2, false, 0, 512⟩ : DagR).grounded ∧
       (⟨1, false, 0, 256⟩ : DagR).preference = (⟨2, false, 0, 512⟩ : DagR).preference ∧
       (⟨1, false, 0, 256⟩ : DagR).rank = (⟨2, false, 0, 512⟩ : DagR).rank) ∧
    of0.best_dag ⟨1, false, 0, 256⟩ ⟨2, false, 0, 512⟩ =
      mrhof.best_dag ⟨1, false, 0, 256⟩ ⟨2, false, 0, 512⟩ := by
  refine ⟨by decide, ?_⟩
  exact (c8_best_dag_agreement ⟨1, false, 0, 256⟩ ⟨2, false, 0, 512⟩).1 (by decide)

/-- C9 counterexample: for an unknown link metric (no link-stats entry,
metric 0xffff as in scenario six of the spec) the step of rank computed
by rpl-of0.c is 1533, far outside the claimed clipped range one to nine,
and with min_hoprankinc = 256 the rank increase is (1 * 1533 + 0) * 256
truncated to 64768, which is the raw step and not the clipped value
(1 * 9 + 0) * 256 = 2304. -/
theorem c9_counterexample :
    of0.STEP_OF_RANK (of0.parent_link_metric none) = 1533 ∧
    ¬ of0.parent_is_acceptable none ∧
    of0.parent_rank_increase (some ⟨1, 256, 0, none, 0⟩) 256 none = 64768 ∧
    of0.parent_rank_increase (some ⟨1, 256, 0, none, 0⟩) 256 none ≠
      (of0.RANK_FACTOR * of0.MAX_STEP_OF_RANK + of0.RANK_STRETCH) * 256 := by
  refine ⟨by decide, by decide, by decide, by decide⟩

/-- C9 (amended): STEP_OF_RANK is the raw value (3 * link_metric /
ETX_DIVISOR) - 2 without clipping; a parent is acceptable exactly when
that raw step lies in the range one to nine; and parent_rank_increase
always multiplies the raw step by min_hoprankinc, so for a parent whose
step exceeds nine (and whose product fits the uint16 return) the
increase equals step * min_hoprankinc and differs from the value the
clipped step nine would give. -/
theorem c9_step_unclipped (stats : Option Nat) (mhi : Nat) (p : Parent)
    (hs : (of0.MAX_STEP_OF_RANK : Int) < of0.STEP_OF_RANK (of0.parent_link_metric stats))
    (hb : of0.STEP_OF_RANK (of0.parent_link_metric stats) * (mhi : Int) < 65536)
    (hm : 0 < mhi) :
    ¬ of0.parent_is_acceptable stats ∧
    (of0.parent_rank_increase (some p) mhi stats : Int) =
      of0.STEP_OF_RANK (of0.parent_link_metric stats) * (mhi : Int) ∧
    of0.parent_rank_increase (some p) mhi stats ≠
      (of0.RANK_FACTOR * of0.MAX_STEP_OF_RANK + of0.RANK_STRETCH) * mhi := by
  set s : Int := of0.STEP_OF_RANK (of0.parent_link_metric stats) with hsdef
  have hs9 : (9 : Int) < s := by
    simpa [of0.MAX_STEP_OF_RANK] using hs
  have hpos : (0 : Int) ≤ s * (mhi : Int) := by
    have h0 : (0 : Int) ≤ s := by omega
    positivity
  have hval : of0.parent_rank_increase (some p) mhi stats = (s * (mhi : Int)).toNat := by
    unfold of0.parent_rank_increase
    simp only [← hsdef, of0.RANK_FACTOR, of0.RANK_STRETCH]
    norm_num
    rw [Int.emod_eq_of_lt hpos hb]
  refine ⟨?_, ?_, ?_⟩
  · intro hacc
    have h2 := hacc.2
    rw [← hsdef] at h2
    simp [of0.MAX_STEP_OF_RANK] at h2
    omega
  · rw [hval, Int.toNat_of_nonneg hpos]
  · rw [hval]
    simp only [of0.RANK_FACTOR, of0.RANK_STRETCH, of0.MAX_STEP_OF_RANK]
    intro he
    have h3 : s * (mhi : Int) = (((1 * 9 + 0) * mhi : Nat) : Int) := by
      rw [← he, Int.toNat_of_nonneg hpos]
    have h4 : s * (mhi : Int) = 9 * (mhi : Int) := by
      push_cast at h3
      linarith
    have h6 : (0 : Int) < (mhi : Int) := by exact_mod_cast hm
    nlinarith

/-- C9 witness: with no link-stats entry and min_hoprankinc = 8 the step
1533 exceeds nine, the product 12264 fits in a uint16, the parent is
unacceptable, and the rank increase equals 1533 * 8 = 12264 rather than
the clipped 9 * 8 = 72. -/
theorem c9_witness :
    ((of0.MAX_STEP_OF_RANK : Int) < of0.STEP_OF_RANK (of0.parent_link_metric none) ∧
     of0.STEP_OF_RANK (of0.parent_link_metric none) * (8 : Int) < 65536 ∧
     0 < (8 : Nat)) ∧
    (¬ of0.parent_is_acceptable none ∧
     (of0.parent_rank_increase (some ⟨1, 256, 0, none, 0⟩) 8 none : Int) =
       of0.STEP_OF_RANK (of0.parent_link_metric none) * (8 : Int) ∧
     of0.parent_rank_increase (some ⟨1, 256, 0, none, 0⟩) 8 none ≠
       (of0.RANK_FACTOR * of0.MAX_STEP_OF_RANK + of0.RANK_STRETCH) * 8) := by
  refine ⟨⟨by decide, by decide, by decide⟩, ?_⟩
  exact c9_step_unclipped none 8 ⟨1, 256, 0, none, 0⟩ (by decide) (by decide) (by decide)

/-- C10: whenever the two compared estimates of the OF0 best_parent
differ by less than MIN_DIFFERENCE in the int window comparison, the
function returns the DAG preferred parent unconditionally, whatever that
preferred parent is; in particular it may be a parent distinct from both
arguments, or none at all. -/
theorem c10_of0_best_parent_returns_preferred
    (cfg imhi : Nat) (pref : Option Parent) (p1 p2 : Parent)
    (h : (of0.rank_est cfg imhi p1 : Int) <
           (of0.rank_est cfg imhi p2 : Int) + ((cfg : Int) + (cfg / 2 : Nat)) ∧
         (of0.rank_est cfg imhi p1 : Int) >
           (of0.rank_est cfg imhi p2 : Int) - ((cfg : Int) + (cfg / 2 : Nat))) :
    of0.best_parent cfg imhi pref p1 p2 = pref := by
  unfold of0.best_parent
  rw [if_pos]
  exact h

/-- C10 witness: with configured and instance min_hoprankinc 256, two
parents whose estimates are 512 and 522 (difference 10, window 384), and
a DAG whose preferred parent is unset, the OF0 best_parent returns none,
which is neither of its arguments. -/
theorem c10_witness :
    ((of0.rank_est 256 256 ⟨1, 512, 0, none, 0⟩ : Int) <
       (of0.rank_est 256 256 ⟨2, 512, 10, none, 0⟩ : Int) + ((256 : Int) + ((256 / 2 : Nat) : Int)) ∧
     (of0.rank_est 256 256 ⟨1, 512, 0, none, 0⟩ : Int) >
       (of0.rank_est 256 256 ⟨2, 512, 10, none, 0⟩ : Int) - ((256 : Int) + ((256 / 2 : Nat) : Int))) ∧
    of0.best_parent 256 256 none ⟨1, 512, 0, none, 0⟩ ⟨2, 512, 10, none, 0⟩ = none := by
  refine ⟨by decide, ?_⟩
  exact c10_of0_best_parent_returns_preferred 256 256 none
    ⟨1, 512, 0, none, 0⟩ ⟨2, 512, 10, none, 0⟩ (by decide)


set_option maxHeartbeats 2000000 in
/-- Round trip of the DIO builder against the DIO parser, split by
metric-container type and prefix presence. -/
theorem dio_roundtrip (dflt : DioDefaults) (inst : DioOutInstance) (dag : DioOutDag)
    (hmop : inst.mop < 8) (hpref : dag.preference < 8)
    (haggr : inst.mc.aggr < 4) (hprec : inst.mc.prec < 16)
    (hdid : dag.dag_id.length = 16) (hpfx : dag.prefix_info.pfx.length = 16)
    (hmc : inst.mc.type = RPL_DAG_MC_NONE ∨ inst.mc.type = RPL_DAG_MC_ETX ∨
           inst.mc.type = RPL_DAG_MC_ENERGY) :
    (dio_output inst dag).isSome = true ∧
    dioDecode dflt ((dio_output inst dag).getD [])
        (((dio_output inst dag).getD []).length) =
      DioResult.ok
        { instance_id := inst.instance_id, version := dag.version, rank := dag.rank,
          grounded := dag.grounded, mop := inst.mop, preference := dag.preference,
          dtsn := inst.dtsn_out, dag_id := dag.dag_id,
          mc := if inst.mc.type = RPL_DAG_MC_NONE then ⟨0, 0, 0, 0, 0, 0, 0, 0⟩
                else if inst.mc.type = RPL_DAG_MC_ETX then
                  ⟨RPL_DAG_MC_ETX, inst.mc.flags, inst.mc.aggr, inst.mc.prec, 2,
                   inst.mc.etx, 0, 0⟩
                else
                  ⟨RPL_DAG_MC_ENERGY, inst.mc.flags, inst.mc.aggr, inst.mc.prec, 2,
                   0, inst.mc.energy_flags, inst.mc.energy_est⟩,
          destination_pfx := ⟨0, 0, 0, List.replicate 16 0⟩,
          dag_intdoubl := inst.dio_intdoubl, dag_intmin := inst.dio_intmin,
          dag_redund := inst.dio_redundancy, dag_max_rankinc := inst.max_rankinc,
          dag_min_hoprankinc := inst.min_hoprankinc, ocp := inst.ocp,
          default_lifetime := inst.default_lifetime, lifetime_unit := inst.lifetime_unit,
          prefix_info := if 0 < dag.prefix_info.length then
              ⟨dag.prefix_info.length, dag.prefix_info.flags,
               dag.prefix_info.lifetime, dag.prefix_info.pfx⟩
            else ⟨0, 0, 0, List.replicate 16 0⟩ } := by
  obtain ⟨iid, mop, dtsn, mc, idb, imn, ird, mri, mhi, ocpv, dlv, luv⟩ := inst
  obtain ⟨tyv, flv, agv, pcv, lnv, etxv, efv, eev⟩ := mc
  obtain ⟨ver, rank, grounded, prefv, did, pinfo⟩ := dag
  obtain ⟨plen, pflags, plife, ppfx⟩ := pinfo
  simp only at hmop hpref haggr hprec hdid hpfx hmc
  rw [len16_eq did hdid, len16_eq ppfx hpfx]
  rcases hmc with h | h | h <;> subst h <;> by_cases hpl : 0 < plen <;>
    · simp only [dio_output, RPL_DAG_MC_NONE, RPL_DAG_MC_ETX, RPL_DAG_MC_ENERGY,
        RPL_OPTION_DAG_METRIC_CONTAINER, RPL_OPTION_DAG_CONF, RPL_OPTION_PREFIX_INFO,
        set16, set32, hpl]
      simp [dioDecode, dioOptions, byteAt, get16, get32, readBytes, hpl,
        RPL_OPTION_PAD1, RPL_OPTION_DAG_METRIC_CONTAINER, RPL_OPTION_ROUTE_INFO,
        RPL_OPTION_DAG_CONF, RPL_OPTION_PREFIX_INFO, RPL_OPTION_TARGET,
        RPL_OPTION_TRANSIT, RPL_DAG_MC_NONE, RPL_DAG_MC_ETX, RPL_DAG_MC_ENERGY]
      repeat' apply And.intro
      all_goals first
        | rfl
        | omega
        | (cases grounded <;> simp <;> omega)

set_option maxHeartbeats 4000000 in
set_option maxRecDepth 8000 in
/-- Round trip of the DAO builder against the storing-mode DAO parser. -/
theorem dao_roundtrip (specifyDag withDaoAck : Bool) (node : Node)
    (parentAddr pfx : List Nat) (lifetime seq_no gPathSeq : Nat)
    (hdid : node.dag_id.length = 16) (hpfx : pfx.length = 16)
    (hstoring : node.mop ≠ RPL_MOP_NON_STORING) :
    daoParse node
        (dao_output_target_seq specifyDag withDaoAck node parentAddr pfx lifetime seq_no)
        (dao_output_target_seq specifyDag withDaoAck node parentAddr pfx lifetime seq_no).length
        gPathSeq =
      some (node.instance_id,
            (if specifyDag then RPL_DAO_D_FLAG else 0) +
              (if withDaoAck ∧ lifetime ≠ RPL_ZERO_LIFETIME then RPL_DAO_K_FLAG else 0),
            seq_no,
            ⟨128, pfx, node.path_sequence, lifetime⟩) := by
  obtain ⟨iid, mop, dlv, luv, mhi, did, drank, dpref, dpars, routes, daoseq, pathseq⟩ := node
  simp only at hdid hpfx hstoring
  rw [len16_eq did hdid, len16_eq pfx hpfx]
  simp only [RPL_MOP_NON_STORING] at hstoring
  rcases specifyDag <;> rcases withDaoAck <;> by_cases hl : lifetime = 0 <;>
    · simp [dao_output_target_seq, daoParse, daoOptions, byteAt, readBytes,
        hl, hstoring, RPL_OPTION_PAD1, RPL_OPTION_TARGET, RPL_OPTION_TRANSIT,
        RPL_DAO_D_FLAG, RPL_DAO_K_FLAG, RPL_ZERO_LIFETIME, RPL_MOP_NON_STORING]

set_option maxHeartbeats 4000000 in
set_option maxRecDepth 8000 in
/-- Round trip of the DCO builder against the DCO parser. -/
theorem dco_roundtrip (specifyDag withDcoAck : Bool) (node : Node)
    (targetIP : List Nat) (dcoSeq pathSequence : Nat)
    (gPfx : List Nat) (gPathSeq gPathLifetime : Nat)
    (hdid : node.dag_id.length = 16) (htgt : targetIP.length = 16) :
    dcoParse node
        (dco_output specifyDag withDcoAck node.instance_id node.dag_id dcoSeq
          targetIP pathSequence)
        (dco_output specifyDag withDcoAck node.instance_id node.dag_id dcoSeq
          targetIP pathSequence).length
        gPfx gPathSeq gPathLifetime =
      some (node.instance_id,
            (if specifyDag then RPL_DAO_D_FLAG else 0) +
              (if withDcoAck then RPL_DAO_K_FLAG else 0),
            dcoSeq,
            ⟨128, targetIP, pathSequence, 0⟩) := by
  obtain ⟨iid, mop, dlv, luv, mhi, did, drank, dpref, dpars, routes, daoseq, pathseq⟩ := node
  simp only at hdid htgt
  rw [len16_eq did hdid, len16_eq targetIP htgt]
  rcases specifyDag <;> rcases withDcoAck <;>
    · simp only [dco_output, RPL_DAO_D_FLAG, RPL_DAO_K_FLAG,
        RPL_OPTION_TARGET, RPL_OPTION_TRANSIT]
      simp [dcoParse, dcoOptions, byteAt, readBytes,
        RPL_OPTION_PAD1, RPL_OPTION_TARGET, RPL_OPTION_TRANSIT,
        RPL_DAO_D_FLAG, RPL_DAO_K_FLAG]

/-- C2: for every well-formed outbound message, decoding the built byte
buffer through the corresponding input parser reconstructs the same
typed message modulo reserved fields: the DIO built by dio_output
(including the metric-container flags, aggregation and precedence bit
spread and the big-endian 16- and 32-bit fields), the DAO built by
dao_output_target_seq, and the DCO built by dco_output. -/
theorem c2_encode_decode
    (dflt : DioDefaults) (inst : DioOutInstance) (dag : DioOutDag)
    (specifyDag withDaoAck withDcoAck : Bool) (node : Node)
    (parentAddr pfx targetIP : List Nat)
    (lifetime seq_no gPathSeq dcoSeq pathSequence : Nat)
    (gPfx : List Nat) (gps gpl : Nat)
    (hmop : inst.mop < 8) (hpref : dag.preference < 8)
    (haggr : inst.mc.aggr < 4) (hprec : inst.mc.prec < 16)
    (hdid : dag.dag_id.length = 16) (hpfxi : dag.prefix_info.pfx.length = 16)
    (hmc : inst.mc.type = RPL_DAG_MC_NONE ∨ inst.mc.type = RPL_DAG_MC_ETX ∨
           inst.mc.type = RPL_DAG_MC_ENERGY)
    (hndid : node.dag_id.length = 16) (hpfx : pfx.length = 16)
    (hstoring : node.mop ≠ RPL_MOP_NON_STORING) (htgt : targetIP.length = 16) :
    ((dio_output inst dag).isSome = true ∧
     dioDecode dflt ((dio_output inst dag).getD [])
         (((dio_output inst dag).getD []).length) =
       DioResult.ok
         { instance_id := inst.instance_id, version := dag.version, rank := dag.rank,
           grounded := dag.grounded, mop := inst.mop, preference := dag.preference,
           dtsn := inst.dtsn_out, dag_id := dag.dag_id,
           mc := if inst.mc.type = RPL_DAG_MC_NONE then ⟨0, 0, 0, 0, 0, 0, 0, 0⟩
                 else if inst.mc.type = RPL_DAG_MC_ETX then
                   ⟨RPL_DAG_MC_ETX, inst.mc.flags, inst.mc.aggr, inst.mc.prec, 2,
                    inst.mc.etx, 0, 0⟩
                 else
                   ⟨RPL_DAG_MC_ENERGY, inst.mc.flags, inst.mc.aggr, inst.mc.prec, 2,
                    0, inst.mc.energy_flags, inst.mc.energy_est⟩,
           destination_pfx := ⟨0, 0, 0, List.replicate 16 0⟩,
           dag_intdoubl := inst.dio_intdoubl, dag_intmin := inst.dio_intmin,
           dag_redund := inst.dio_redundancy, dag_max_rankinc := inst.max_rankinc,
           dag_min_hoprankinc := inst.min_hoprankinc, ocp := inst.ocp,
           default_lifetime := inst.default_lifetime,
           lifetime_unit := inst.lifetime_unit,
           prefix_info := if 0 < dag.prefix_info.length then
               ⟨dag.prefix_info.length, dag.prefix_info.flags,
                dag.prefix_info.lifetime, dag.prefix_info.pfx⟩
             else ⟨0, 0, 0, List.replicate 16 0⟩ }) ∧
    (daoParse node
        (dao_output_target_seq specifyDag withDaoAck node parentAddr pfx lifetime seq_no)
        (dao_output_target_seq specifyDag withDaoAck node parentAddr pfx lifetime seq_no).length
        gPathSeq =
      some (node.instance_id,
            (if specifyDag then RPL_DAO_D_FLAG else 0) +
              (if withDaoAck ∧ lifetime ≠ RPL_ZERO_LIFETIME then RPL_DAO_K_FLAG else 0),
            seq_no,
            ⟨128, pfx, node.path_sequence, lifetime⟩)) ∧
    (dcoParse node
        (dco_output specifyDag withDcoAck node.instance_id node.dag_id dcoSeq
          targetIP pathSequence)
        (dco_output specifyDag withDcoAck node.instance_id node.dag_id dcoSeq
          targetIP pathSequence).length
        gPfx gps gpl =
      some (node.instance_id,
            (if specifyDag then RPL_DAO_D_FLAG else 0) +
              (if withDcoAck then RPL_DAO_K_FLAG else 0),
            dcoSeq,
            ⟨128, targetIP, pathSequence, 0⟩)) :=
  ⟨dio_roundtrip dflt inst dag hmop hpref haggr hprec hdid hpfxi hmc,
   dao_roundtrip specifyDag withDaoAck node parentAddr pfx lifetime seq_no gPathSeq
     hndid hpfx hstoring,
   dco_roundtrip specifyDag withDcoAck node targetIP dcoSeq pathSequence gPfx gps gpl
     hndid htgt⟩

/-- C2 witness: the three round trips at concrete inputs. -/
theorem c2_witness :
    (c2I.mop < 8 ∧ c2D.preference < 8 ∧ c2I.mc.aggr < 4 ∧ c2I.mc.prec < 16 ∧
     c2D.dag_id.length = 16 ∧ c2D.prefix_info.pfx.length = 16 ∧
     c2I.mc.type = RPL_DAG_MC_ETX ∧
     c2N.dag_id.length = 16 ∧ (List.replicate 16 9).length = 16 ∧
     c2N.mop ≠ RPL_MOP_NON_STORING ∧ (List.replicate 16 4).length = 16) ∧
    ((dio_output c2I c2D).isSome = true ∧
     dioDecode c2F ((dio_output c2I c2D).getD [])
         (((dio_output c2I c2D).getD []).length) =
       DioResult.ok ⟨17, 241, 512, true, 2, 5, 240, List.replicate 16 3,
         ⟨7, 9, 3, 5, 2, 300, 0, 0⟩, ⟨0, 0, 0, List.replicate 16 0⟩,
         8, 12, 10, 768, 256, 1, 30, 60, ⟨64, 3, 1000, List.replicate 16 7⟩⟩) ∧
    (daoParse c2N
        (dao_output_target_seq true true c2N (List.replicate 16 8) (List.replicate 16 9) 30 7)
        (dao_output_target_seq true true c2N (List.replicate 16 8) (List.replicate 16 9) 30 7).length
        99 =
      some (17, 192, 7, ⟨128, List.replicate 16 9, 5, 30⟩)) ∧
    (dcoParse c2N
        (dco_output true true c2N.instance_id c2N.dag_id 11 (List.replicate 16 4) 4)
        (dco_output true true c2N.instance_id c2N.dag_id 11 (List.replicate 16 4) 4).length
        [] 0 0 =
      some (17, 192, 11, ⟨128, List.replicate 16 4, 4, 0⟩)) := by
  have h := c2_encode_decode c2F c2I c2D true true true c2N
    (List.replicate 16 8) (List.replicate 16 9) (List.replicate 16 4)
    30 7 99 11 4 [] 0 0
    (by decide) (by decide) (by decide) (by decide) (by decide) (by decide)
    (by decide) (by decide) (by decide) (by decide) (by decide)
  exact ⟨by decide, h.1, h.2.1, h.2.2⟩

/-- C1 counterexample: a storing-mode DAO whose target option declares
length 30 with only eight octets of options in the payload (the option
would run 24 octets past the payload end).  The claim requires the
message to be rejected with the malformed counter incremented and no
route-table change; instead the handler processes it, installs a route
built from the out-of-payload scratch bytes, and sends a DAO-ACK. -/
theorem c1_counterexample :
    (12 : Nat) < (2 + byteAt ([1, 128, 0, 7, 5, 30, 0, 128] ++ List.replicate 16 9) 5) + 4 ∧
    (dao_input_storing ⟨true, true, none⟩
        ⟨1, 2, 30, 60, 256, List.replicate 16 3, 256, none, [], [], 240, 5⟩
        ([1, 128, 0, 7, 5, 30, 0, 128] ++ List.replicate 16 9) 12
        (List.replicate 16 171) 0).stats.malformed_msgs = 0 ∧
    (dao_input_storing ⟨true, true, none⟩
        ⟨1, 2, 30, 60, 256, List.replicate 16 3, 256, none, [], [], 240, 5⟩
        ([1, 128, 0, 7, 5, 30, 0, 128] ++ List.replicate 16 9) 12
        (List.replicate 16 171) 0).node.routes ≠ [] ∧
    (dao_input_storing ⟨true, true, none⟩
        ⟨1, 2, 30, 60, 256, List.replicate 16 3, 256, none, [], [], 240, 5⟩
        ([1, 128, 0, 7, 5, 30, 0, 128] ++ List.replicate 16 9) 12
        (List.replicate 16 171) 0).events ≠ [] := by
  refine ⟨by decide, by decide, by decide, by decide⟩

/-- Helper: the fwd_dao phase returns the statistics it is given. -/
theorem fwdDaoPhase_stats (n : Node) (st : Stats) (rep : Option RouteEntry)
    (routes : List RouteEntry) (ds : Nat) (cnh : Option (List Nat)) (acc : DaoOpts)
    (f sq : Nat) (u ir : Bool) (s : List Nat) (b : List Nat) (bl : Nat) :
    (fwdDaoPhase n st rep routes ds cnh acc f sq u ir s b bl).stats = st := by
  unfold fwdDaoPhase
  split <;> rfl

/-- Helper: the main phase of the storing DAO handler never touches the
malformed counter. -/
theorem daoMainPhase_malformed (env : Env) (node : Node) (buf : List Nat) (blen : Nat)
    (sender : List Nat) (g f sq : Nat) (u ir : Bool) (pos : Nat) :
    (daoMainPhase env node buf blen sender g f sq u ir pos).stats.malformed_msgs = 0 := by
  unfold daoMainPhase
  repeat' (first | rfl | rw [fwdDaoPhase_stats] | split | simp only [])

/-- C1 (amended): only the DIO handler bounds-checks the option stream:
an option reached by the DIO suboption loop whose computed length would
extend past the payload end makes the handler discard the message as
malformed; the DAO (storing) and DCO handlers perform no such check and
never increment the malformed counter on any input. -/
theorem c1_malformed_handling :
    (∀ (fuel : Nat) (buf : List Nat) (blen i : Nat) (d : RplDio),
       0 < fuel → i < blen →
       blen < (if byteAt buf i = RPL_OPTION_PAD1 then 1 else 2 + byteAt buf (i + 1)) + i →
       dioOptions fuel buf blen i d = DioResult.malformed) ∧
    (∀ (env : Env) (node : Node) (buf : List Nat) (blen : Nat)
       (sender : List Nat) (g : Nat),
       (dao_input_storing env node buf blen sender g).stats.malformed_msgs = 0) ∧
    (∀ (env : Env) (node : Node) (buf : List Nat) (blen : Nat)
       (sender gp : List Nat) (g1 g2 : Nat),
       (dco_input env node buf blen sender gp g1 g2).stats.malformed_msgs = 0) := by
  refine ⟨?_, ?_, ?_⟩
  · intro fuel buf blen i d hf h1 h2
    cases fuel with
    | zero => omega
    | succ n =>
      simp only [dioOptions]
      simp [h1, h2]
  · intro env node buf blen sender g
    unfold dao_input_storing
    repeat' (first | rfl | rw [daoMainPhase_malformed] | split | simp only [])
  · intro env node buf blen sender gp g1 g2
    unfold dco_input
    repeat' (first | rfl | split | simp only [])

/-- C1 witness: a DIO option of declared length 200 in a two-octet
payload is rejected as malformed. -/
theorem c1_witness :
    (0 < (1 : Nat) ∧ 0 < (2 : Nat) ∧
     (2 : Nat) < (if byteAt [4, 200] 0 = RPL_OPTION_PAD1 then 1
                  else 2 + byteAt [4, 200] 1) + 0) ∧
    dioOptions 1 [4, 200] 2 0 c1Dio = DioResult.malformed := by
  refine ⟨by decide, ?_⟩
  exact c1_malformed_handling.1 1 [4, 200] 2 0 c1Dio (by decide) (by decide) (by decide)

/-- C3 counterexample: a DCO whose transit option carries a nonzero path
lifetime, for a target with a local route whose next hop is known and
whose stored path sequence (3) is lollipop-older than the received one
(4).  The claim requires forwarding to the next hop followed by deletion
of the route, or else an ignore with dco_ignored incremented; the code
does neither (the route survives, nothing is sent, and dco_ignored stays
zero) because it additionally requires the path lifetime to be zero. -/
theorem c3_counterexample :
    lollipop_greater_than 4 3 = true ∧
    (dco_input ⟨true, true, none⟩
        ⟨1, 2, 30, 60, 256, List.replicate 16 3, 512, none, [],
         [⟨List.replicate 16 9, 128, some (List.replicate 16 171), 100, 0, 0, 3,
           false, false⟩], 240, 5⟩
        ([1, 0, 0, 7, 5, 18, 0, 128] ++ List.replicate 16 9 ++ [6, 4, 0, 0, 4, 7]) 30
        (List.replicate 16 200) [] 0 0).node.routes =
      [⟨List.replicate 16 9, 128, some (List.replicate 16 171), 100, 0, 0, 3,
        false, false⟩] ∧
    (dco_input ⟨true, true, none⟩
        ⟨1, 2, 30, 60, 256, List.replicate 16 3, 512, none, [],
         [⟨List.replicate 16 9, 128, some (List.replicate 16 171), 100, 0, 0, 3,
           false, false⟩], 240, 5⟩
        ([1, 0, 0, 7, 5, 18, 0, 128] ++ List.replicate 16 9 ++ [6, 4, 0, 0, 4, 7]) 30
        (List.replicate 16 200) [] 0 0).events = [] ∧
    (dco_input ⟨true, true, none⟩
        ⟨1, 2, 30, 60, 256, List.replicate 16 3, 512, none, [],
         [⟨List.replicate 16 9, 128, some (List.replicate 16 171), 100, 0, 0, 3,
           false, false⟩], 240, 5⟩
        ([1, 0, 0, 7, 5, 18, 0, 128] ++ List.replicate 16 9 ++ [6, 4, 0, 0, 4, 7]) 30
        (List.replicate 16 200) [] 0 0).stats.dco_ignored = 0 := by
  refine ⟨by decide, by decide, by decide, by decide⟩

/-- C3 (amended): for a received DCO whose target prefix has a local
route, whose transit path lifetime is zero, and whose route has a known
next hop: if the received path sequence is lollipop-greater than the
stored dao_path_sequence, the handler forwards the DCO to that next hop
and then deletes the route (counting dco_forwarded); otherwise it
ignores the DCO (route kept, dco_ignored incremented); in both cases a
DCO-ACK with status zero answers a set K flag.  A DCO with nonzero path
lifetime, or a route without a next hop, never triggers the forwarding
and deletion. -/
theorem c3_dco_route_handling (env : Env) (node : Node) (buf : List Nat)
    (blen : Nat) (sender gpfx : List Nat) (gps gpl : Nat)
    (acc : DcoOpts) (r : RouteEntry) (nh : List Nat)
    (hacc : acc = dcoOptions blen buf blen
      (if 64 ≤ byteAt buf 1 % 128 then 20 else 4) ⟨0, gpfx, gps, gpl⟩)
    (hdag : ¬ (64 ≤ byteAt buf 1 % 128 ∧ readBytes buf 4 16 ≠ node.dag_id))
    (hroute : uip_ds6_route_lookup node.routes acc.pfx = some r)
    (hlt : acc.pathLifetime = 0)
    (hnh : r.nexthop = some nh) :
    (lollipop_greater_than acc.pathSequence r.dao_path_sequence = true →
       (dco_input env node buf blen sender gpfx gps gpl).node.routes =
         node.routes.erase r ∧
       (dco_input env node buf blen sender gpfx gps gpl).events =
         Ev.icmp6Send nh RPL_CODE_DCO buf blen ::
           (if 128 ≤ byteAt buf 1 then [Ev.dcoAck sender (byteAt buf 3) 0] else []) ∧
       (dco_input env node buf blen sender gpfx gps gpl).stats = ⟨0, 0, 1, 0⟩) ∧
    (lollipop_greater_than acc.pathSequence r.dao_path_sequence = false →
       (dco_input env node buf blen sender gpfx gps gpl).node.routes =
         node.routes ∧
       (dco_input env node buf blen sender gpfx gps gpl).events =
         (if 128 ≤ byteAt buf 1 then [Ev.dcoAck sender (byteAt buf 3) 0] else []) ∧
       (dco_input env node buf blen sender gpfx gps gpl).stats = ⟨0, 1, 0, 0⟩) := by
  unfold dco_input
  rw [if_neg hdag]
  simp only [← hacc, hroute, hlt, hnh]
  constructor
  · intro hg
    simp [hg]
  · intro hg
    simp [hg]

/-- C3 witness: the same route state with a zero path lifetime and a
lollipop-greater sequence forwards the DCO and deletes the route. -/
theorem c3_witness :
    ((⟨128, List.replicate 16 9, 4, 0⟩ : DcoOpts) =
       dcoOptions 30 ([1, 0, 0, 7, 5, 18, 0, 128] ++ List.replicate 16 9 ++
         [6, 4, 0, 0, 4, 0]) 30
         (if 64 ≤ byteAt ([1, 0, 0, 7, 5, 18, 0, 128] ++ List.replicate 16 9 ++
            [6, 4, 0, 0, 4, 0]) 1 % 128 then 20 else 4)
         ⟨0, [], 0, 0⟩) ∧
    (dco_input ⟨true, true, none⟩
        ⟨1, 2, 30, 60, 256, List.replicate 16 3, 512, none, [],
         [⟨List.replicate 16 9, 128, some (List.replicate 16 171), 100, 0, 0, 3,
           false, false⟩], 240, 5⟩
        ([1, 0, 0, 7, 5, 18, 0, 128] ++ List.replicate 16 9 ++ [6, 4, 0, 0, 4, 0]) 30
        (List.replicate 16 171) [] 0 0).node.routes = [] ∧
    (dco_input ⟨true, true, none⟩
        ⟨1, 2, 30, 60, 256, List.replicate 16 3, 512, none, [],
         [⟨List.replicate 16 9, 128, some (List.replicate 16 171), 100, 0, 0, 3,
           false, false⟩], 240, 5⟩
        ([1, 0, 0, 7, 5, 18, 0, 128] ++ List.replicate 16 9 ++ [6, 4, 0, 0, 4, 0]) 30
        (List.replicate 16 171) [] 0 0).events =
      [Ev.icmp6Send (List.replicate 16 171) RPL_CODE_DCO
        ([1, 0, 0, 7, 5, 18, 0, 128] ++ List.replicate 16 9 ++ [6, 4, 0, 0, 4, 0]) 30] ∧
    (dco_input ⟨true, true, none⟩
        ⟨1, 2, 30, 60, 256, List.replicate 16 3, 512, none, [],
         [⟨List.replicate 16 9, 128, some (List.replicate 16 171), 100, 0, 0, 3,
           false, false⟩], 240, 5⟩
        ([1, 0, 0, 7, 5, 18, 0, 128] ++ List.replicate 16 9 ++ [6, 4, 0, 0, 4, 0]) 30
        (List.replicate 16 171) [] 0 0).stats = ⟨0, 0, 1, 0⟩ := by
  refine ⟨by decide, ?_⟩
  have h := (c3_dco_route_handling ⟨true, true, none⟩
    ⟨1, 2, 30, 60, 256, List.replicate 16 3, 512, none, [],
     [⟨List.replicate 16 9, 128, some (List.replicate 16 171), 100, 0, 0, 3,
       false, false⟩], 240, 5⟩
    ([1, 0, 0, 7, 5, 18, 0, 128] ++ List.replicate 16 9 ++ [6, 4, 0, 0, 4, 0]) 30
    (List.replicate 16 171) [] 0 0
    ⟨128, List.replicate 16 9, 4, 0⟩
    ⟨List.replicate 16 9, 128, some (List.replicate 16 171), 100, 0, 0, 3,
      false, false⟩
    (List.replicate 16 171)
    (by decide) (by decide) (by decide) (by decide) (by decide)).1 (by decide)
  exact ⟨h.1, by decide, h.2.2⟩

/-- C4 counterexample: a DCO with the K flag set whose target equals our
own global address and has no local route.  The claim requires a
negative DCO-ACK with status 234; the handler instead discards before
the acknowledgement check (counting dco_ignored) and sends nothing at
all. -/
theorem c4_counterexample :
    128 ≤ byteAt ([1, 128, 0, 7, 5, 18, 0, 128] ++ List.replicate 16 5 ++
      [6, 4, 0, 0, 4, 0]) 1 ∧
    (dco_input ⟨true, true, some (List.replicate 16 5)⟩
        ⟨1, 2, 30, 60, 256, List.replicate 16 3, 512, none, [], [], 240, 5⟩
        ([1, 128, 0, 7, 5, 18, 0, 128] ++ List.replicate 16 5 ++ [6, 4, 0, 0, 4, 0]) 30
        (List.replicate 16 171) [] 0 0).events = [] ∧
    (dco_input ⟨true, true, some (List.replicate 16 5)⟩
        ⟨1, 2, 30, 60, 256, List.replicate 16 3, 512, none, [], [], 240, 5⟩
        ([1, 128, 0, 7, 5, 18, 0, 128] ++ List.replicate 16 5 ++ [6, 4, 0, 0, 4, 0]) 30
        (List.replicate 16 171) [] 0 0).stats.dco_ignored = 1 := by
  refine ⟨by decide, by decide, by decide⟩

/-- C4 (amended): when a received DCO reaches the no-route path (no
local route matches the target, or the transit path lifetime is
nonzero) and the target equals one of our own global addresses, the
handler removes nothing, increments dco_ignored, and sends no DCO-ACK at
all, even when the K flag is set; the negative acknowledgement with
status 234 is reserved for targets that are not our own address. -/
theorem c4_dco_own_address (env : Env) (node : Node) (buf : List Nat)
    (blen : Nat) (sender gpfx : List Nat) (gps gpl : Nat) (acc : DcoOpts)
    (hacc : acc = dcoOptions blen buf blen
      (if 64 ≤ byteAt buf 1 % 128 then 20 else 4) ⟨0, gpfx, gps, gpl⟩)
    (hdag : ¬ (64 ≤ byteAt buf 1 % 128 ∧ readBytes buf 4 16 ≠ node.dag_id))
    (hmiss : uip_ds6_route_lookup node.routes acc.pfx = none ∨ acc.pathLifetime ≠ 0)
    (hown : env.globalAddr = some acc.pfx) :
    (dco_input env node buf blen sender gpfx gps gpl).node = node ∧
    (dco_input env node buf blen sender gpfx gps gpl).events = [] ∧
    (dco_input env node buf blen sender gpfx gps gpl).stats = ⟨0, 1, 0, 0⟩ := by
  unfold dco_input
  rw [if_neg hdag]
  rcases hmiss with hm | hm
  · simp only [← hacc, hm, hown]
    exact ⟨rfl, rfl, rfl⟩
  · rcases hr : uip_ds6_route_lookup node.routes acc.pfx with _ | r
    · simp only [← hacc, hr, hown]
      exact ⟨rfl, rfl, rfl⟩
    · simp only [← hacc, hr, hown, if_neg hm]
      exact ⟨rfl, rfl, rfl⟩

/-- C4 witness: the counterexample state seen through the amended
statement (own-address DCO with K set is dropped without any
acknowledgement). -/
theorem c4_witness :
    ((⟨128, List.replicate 16 5, 4, 0⟩ : DcoOpts) =
       dcoOptions 30 ([1, 128, 0, 7, 5, 18, 0, 128] ++ List.replicate 16 5 ++
         [6, 4, 0, 0, 4, 0]) 30
         (if 64 ≤ byteAt ([1, 128, 0, 7, 5, 18, 0, 128] ++ List.replicate 16 5 ++
            [6, 4, 0, 0, 4, 0]) 1 % 128 then 20 else 4)
         ⟨0, [], 0, 0⟩) ∧
    (dco_input ⟨true, true, some (List.replicate 16 5)⟩
        ⟨1, 2, 30, 60, 256, List.replicate 16 3, 512, none, [], [], 240, 5⟩
        ([1, 128, 0, 7, 5, 18, 0, 128] ++ List.replicate 16 5 ++ [6, 4, 0, 0, 4, 0]) 30
        (List.replicate 16 171) [] 0 0).node =
      ⟨1, 2, 30, 60, 256, List.replicate 16 3, 512, none, [], [], 240, 5⟩ ∧
    (dco_input ⟨true, true, some (List.replicate 16 5)⟩
        ⟨1, 2, 30, 60, 256, List.replicate 16 3, 512, none, [], [], 240, 5⟩
        ([1, 128, 0, 7, 5, 18, 0, 128] ++ List.replicate 16 5 ++ [6, 4, 0, 0, 4, 0]) 30
        (List.replicate 16 171) [] 0 0).events = [] ∧
    (dco_input ⟨true, true, some (List.replicate 16 5)⟩
        ⟨1, 2, 30, 60, 256, List.replicate 16 3, 512, none, [], [], 240, 5⟩
        ([1, 128, 0, 7, 5, 18, 0, 128] ++ List.replicate 16 5 ++ [6, 4, 0, 0, 4, 0]) 30
        (List.replicate 16 171) [] 0 0).stats = ⟨0, 1, 0, 0⟩ := by
  refine ⟨by decide, ?_⟩
  exact c4_dco_own_address ⟨true, true, some (List.replicate 16 5)⟩
    ⟨1, 2, 30, 60, 256, List.replicate 16 3, 512, none, [], [], 240, 5⟩
    ([1, 128, 0, 7, 5, 18, 0, 128] ++ List.replicate 16 5 ++ [6, 4, 0, 0, 4, 0]) 30
    (List.replicate 16 171) [] 0 0
    ⟨128, List.replicate 16 5, 4, 0⟩
    (by decide) (by decide) (Or.inl (by decide)) (by decide)

/-- C5: a unicast No-Path DAO (zero lifetime) in storing mode, reaching
the handler with a matching DAG id, a sender that is not a parent (no
loop), and a unicast (non-multicast) target.  When a route matches the
target with next hop equal to the sender and its NOPATH bit clear, the
route is re-written with the NOPATH bit set, lifetime
RPL_NOPATH_REMOVAL_DELAY, and, the preferred parent existing with a
known address, the pending bits and sequence numbers of
prepare_for_dao_fwd (incoming sequence recorded, outgoing sequence
freshly allocated by the lollipop increment of dao_sequence), and a copy
of the DAO with payload octet three replaced by that outgoing sequence
is forwarded to the preferred parent; a DAO-ACK with
UNCONDITIONAL_ACCEPT answers any set K flag, whether or not a route
matched. -/
theorem c5_nopath_dao (env : Env) (node : Node) (buf : List Nat) (blen : Nat)
    (sender : List Nat) (gps : Nat) (acc : DaoOpts) (r : RouteEntry)
    (pp : Parent) (pa : List Nat)
    (hacc : acc = daoOptions blen buf blen
      (if 64 ≤ byteAt buf 1 % 128 then 20 else 4)
      ⟨0, List.replicate 16 0, gps, node.default_lifetime⟩)
    (hdag : ¬ (64 ≤ byteAt buf 1 % 128 ∧ readBytes buf 4 16 ≠ node.dag_id))
    (hsender : uip_is_addr_mcast sender = false)
    (hnoparent : node.dag_parents.find? (fun p => p.addr == some sender) = none)
    (hmcg : uip_is_addr_mcast_global acc.pfx = false)
    (hzero : acc.lifetime = RPL_ZERO_LIFETIME) :
    (uip_ds6_route_lookup node.routes acc.pfx = some r →
     r.nopath_received = false → r.length = acc.prefixlen →
     r.nexthop = some sender →
     node.dag_preferred = some pp → pp.addr = some pa →
       (dao_input_storing env node buf blen sender gps).node.routes =
         updateRoute node.routes r
           { r with nopath_received := true, lifetime := RPL_NOPATH_REMOVAL_DELAY,
                    dao_seqno_in := byteAt buf 3,
                    dao_seqno_out := lollipopIncrement node.dao_sequence,
                    dao_pending := true } ∧
       (dao_input_storing env node buf blen sender gps).node.dao_sequence =
         lollipopIncrement node.dao_sequence ∧
       (dao_input_storing env node buf blen sender gps).events =
         Ev.icmp6Send pa RPL_CODE_DAO
             (buf.set 3 (lollipopIncrement node.dao_sequence)) blen ::
           (if 128 ≤ byteAt buf 1 then
             [Ev.daoAck sender (byteAt buf 3) RPL_DAO_ACK_UNCONDITIONAL_ACCEPT]
            else [])) ∧
    (128 ≤ byteAt buf 1 →
       Ev.daoAck sender (byteAt buf 3) RPL_DAO_ACK_UNCONDITIONAL_ACCEPT ∈
         (dao_input_storing env node buf blen sender gps).events) := by
  constructor
  · intro hrep hnp hlen hnh hpp hpa
    unfold dao_input_storing daoMainPhase
    rw [if_neg hdag]
    simp only [hsender, Bool.not_false, if_pos rfl, hnoparent, ← hacc, hmcg,
      hzero, hrep, hnp, hlen, hnh, hpp, hpa]
    simp [hnp, hlen, hnh]
  · intro hK
    unfold dao_input_storing daoMainPhase
    rw [if_neg hdag]
    simp only [hsender, Bool.not_false, if_pos rfl, hnoparent, ← hacc, hmcg, hzero]
    simp [hK, List.mem_append]

/-- C5 witness: the spec scenario three at concrete inputs.  The sender
171... withdraws 9.../128; the route is marked NOPATH with lifetime
RPL_NOPATH_REMOVAL_DELAY and the prepare_for_dao_fwd state (incoming
sequence 5, fresh outgoing sequence 241), the DAO is forwarded to the
preferred parent with payload octet three rewritten to 241, and the
set K flag draws an UNCONDITIONAL_ACCEPT DAO-ACK. -/
theorem c5_witness :
    ((⟨128, List.replicate 16 9, 9, 0⟩ : DaoOpts) =
       daoOptions 30 ([1, 128, 0, 5, 5, 18, 0, 128] ++ List.replicate 16 9 ++
         [6, 4, 0, 0, 9, 0]) 30
         (if 64 ≤ byteAt ([1, 128, 0, 5, 5, 18, 0, 128] ++ List.replicate 16 9 ++
            [6, 4, 0, 0, 9, 0]) 1 % 128 then 20 else 4)
         ⟨0, List.replicate 16 0, 0, 30⟩) ∧
    (dao_input_storing ⟨true, true, none⟩
        ⟨1, 2, 30, 60, 256, List.replicate 16 3, 512,
         some ⟨1, 128, 10, some (List.replicate 16 14), 0⟩, [],
         [⟨List.replicate 16 9, 128, some (List.replicate 16 171), 100, 0, 0, 3,
           false, false⟩], 240, 5⟩
        ([1, 128, 0, 5, 5, 18, 0, 128] ++ List.replicate 16 9 ++ [6, 4, 0, 0, 9, 0]) 30
        (List.replicate 16 171) 0).node.routes =
      [⟨List.replicate 16 9, 128, some (List.replicate 16 171),
        RPL_NOPATH_REMOVAL_DELAY, 5, 241, 3, true, true⟩] ∧
    (dao_input_storing ⟨true, true, none⟩
        ⟨1, 2, 30, 60, 256, List.replicate 16 3, 512,
         some ⟨1, 128, 10, some (List.replicate 16 14), 0⟩, [],
         [⟨List.replicate 16 9, 128, some (List.replicate 16 171), 100, 0, 0, 3,
           false, false⟩], 240, 5⟩
        ([1, 128, 0, 5, 5, 18, 0, 128] ++ List.replicate 16 9 ++ [6, 4, 0, 0, 9, 0]) 30
        (List.replicate 16 171) 0).node.dao_sequence = 241 ∧
    (dao_input_storing ⟨true, true, none⟩
        ⟨1, 2, 30, 60, 256, List.replicate 16 3, 512,
         some ⟨1, 128, 10, some (List.replicate 16 14), 0⟩, [],
         [⟨List.replicate 16 9, 128, some (List.replicate 16 171), 100, 0, 0, 3,
           false, false⟩], 240, 5⟩
        ([1, 128, 0, 5, 5, 18, 0, 128] ++ List.replicate 16 9 ++ [6, 4, 0, 0, 9, 0]) 30
        (List.replicate 16 171) 0).events =
      Ev.icmp6Send (List.replicate 16 14) RPL_CODE_DAO
          (([1, 128, 0, 5, 5, 18, 0, 128] ++ List.replicate 16 9 ++
            [6, 4, 0, 0, 9, 0]).set 3 241) 30 ::
        [Ev.daoAck (List.replicate 16 171) 5 RPL_DAO_ACK_UNCONDITIONAL_ACCEPT] ∧
    Ev.daoAck (List.replicate 16 171) 5 RPL_DAO_ACK_UNCONDITIONAL_ACCEPT ∈
      (dao_input_storing ⟨true, true, none⟩
        ⟨1, 2, 30, 60, 256, List.replicate 16 3, 512,
         some ⟨1, 128, 10, some (List.replicate 16 14), 0⟩, [],
         [⟨List.replicate 16 9, 128, some (List.replicate 16 171), 100, 0, 0, 3,
           false, false⟩], 240, 5⟩
        ([1, 128, 0, 5, 5, 18, 0, 128] ++ List.replicate 16 9 ++ [6, 4, 0, 0, 9, 0]) 30
        (List.replicate 16 171) 0).events := by
  have h := c5_nopath_dao ⟨true, true, none⟩
    ⟨1, 2, 30, 60, 256, List.replicate 16 3, 512,
     some ⟨1, 128, 10, some (List.replicate 16 14), 0⟩, [],
     [⟨List.replicate 16 9, 128, some (List.replicate 16 171), 100, 0, 0, 3,
       false, false⟩], 240, 5⟩
    ([1, 128, 0, 5, 5, 18, 0, 128] ++ List.replicate 16 9 ++ [6, 4, 0, 0, 9, 0]) 30
    (List.replicate 16 171) 0
    ⟨128, List.replicate 16 9, 9, 0⟩
    ⟨List.replicate 16 9, 128, some (List.replicate 16 171), 100, 0, 0, 3,
      false, false⟩
    ⟨1, 128, 10, some (List.replicate 16 14), 0⟩
    (List.replicate 16 14)
    (by decide) (by decide) (by decide) (by decide) (by decide) (by decide)
  have h1 := h.1 (by decide) (by decide) (by decide) (by decide) (by decide) (by decide)
  refine ⟨by decide, ?_, h1.2.1, ?_, h.2 (by decide)⟩
  · rw [h1.1]
    decide
  · rw [h1.2.2]
    decide

/-- C6 counterexample: a retransmit tick at the limit for a non-storing
instance (mop 1) with a non-legacy configuration.  The claim requires
the OF dao_ack_callback to be invoked with TIMEOUT before the local
repair; the handler guards the callback with RPL_IS_STORING, so only the
local repair happens and no callback event is emitted. -/
theorem c6_counterexample :
    RPL_DAO_MAX_RETRANSMISSIONS ≤ (5 : Nat) ∧
    ¬ ((1000 : Nat) = 65535 ∧ (100 : Nat) = 255) ∧
    (handle_dao_retransmission ⟨1, 1000, 100, 7, 5⟩ true true).2 =
      [RetxEv.localRepair] ∧
    RetxEv.daoAckCallback RPL_DAO_ACK_TIMEOUT ∉
      (handle_dao_retransmission ⟨1, 1000, 100, 7, 5⟩ true true).2 := by
  refine ⟨by decide, by decide, by decide, by decide⟩

/-- C6 (amended): at a retransmit tick with my_dao_transmissions at
least RPL_DAO_MAX_RETRANSMISSIONS, the legacy configuration
lifetime_unit 0xffff with default_lifetime 0xff makes the handler stop
silently (state unchanged, no callback, no repair); otherwise local
repair is initiated, preceded by the dao_ack_callback with TIMEOUT
exactly when the instance is in a storing mode of operation and the
objective function provides the callback. -/
theorem c6_retransmission_giveup (inst : RetxInstance) (hasCallback hasGlobal : Bool)
    (hmax : RPL_DAO_MAX_RETRANSMISSIONS ≤ inst.my_dao_transmissions) :
    (inst.lifetime_unit = 65535 ∧ inst.default_lifetime = 255 →
       handle_dao_retransmission inst hasCallback hasGlobal = (inst, [])) ∧
    (¬ (inst.lifetime_unit = 65535 ∧ inst.default_lifetime = 255) →
       (RPL_IS_STORING inst.mop ∧ hasCallback = true →
          handle_dao_retransmission inst hasCallback hasGlobal =
            (inst, [RetxEv.daoAckCallback RPL_DAO_ACK_TIMEOUT, RetxEv.localRepair])) ∧
       (¬ (RPL_IS_STORING inst.mop ∧ hasCallback = true) →
          handle_dao_retransmission inst hasCallback hasGlobal =
            (inst, [RetxEv.localRepair]))) := by
  unfold handle_dao_retransmission
  rw [if_pos hmax]
  refine ⟨fun h => by rw [if_pos h], fun h => ⟨fun hc => ?_, fun hc => ?_⟩⟩
  · rw [if_neg h, if_pos hc]
    rfl
  · rw [if_neg h, if_neg hc]
    rfl

/-- C6 witness: at the limit, a storing instance with a callback and a
non-legacy configuration notifies the objective function with TIMEOUT
and then repairs, and the legacy configuration stops silently. -/
theorem c6_witness :
    (RPL_DAO_MAX_RETRANSMISSIONS ≤ (5 : Nat) ∧
     ¬ ((1000 : Nat) = 65535 ∧ (100 : Nat) = 255) ∧
     (RPL_IS_STORING (2 : Nat) ∧ true = true)) ∧
    handle_dao_retransmission ⟨2, 1000, 100, 7, 5⟩ true true =
      (⟨2, 1000, 100, 7, 5⟩,
       [RetxEv.daoAckCallback RPL_DAO_ACK_TIMEOUT, RetxEv.localRepair]) ∧
    (RPL_DAO_MAX_RETRANSMISSIONS ≤ (6 : Nat) ∧
     ((65535 : Nat) = 65535 ∧ (255 : Nat) = 255)) ∧
    handle_dao_retransmission ⟨2, 65535, 255, 7, 6⟩ true true =
      (⟨2, 65535, 255, 7, 6⟩, []) := by
  refine ⟨by decide, ?_, by decide, ?_⟩
  · exact ((c6_retransmission_giveup ⟨2, 1000, 100, 7, 5⟩ true true
      (by decide)).2 (by decide)).1 (by decide)
  · exact (c6_retransmission_giveup ⟨2, 65535, 255, 7, 6⟩ true true
      (by decide)).1 (by decide)
